import Mathlib

/-!
# Cardiac monitor (`LIGHT_ARDUINO.C`): shallow embedding

The sketch is a single-threaded Arduino loop.  Its global variables become the
fields of `State`; every C function becomes a pure function on `State`.

* Machine integers are natural numbers; `uint32_t` subtraction is `sub32`
  (modulo `2^32`), `uint8_t` stores go through `u8`.
* `millis()` is an oracle: the `k`-th call returns `clock k` (mod `2^32`), and
  `reads` counts the calls made so far.  Nothing is assumed about `clock`.
* Calls to the outside world (buzzer pin, `delay`, display, estimator,
  sensor FIFO) are appended to the trace `out`.
* Values read from the outside world (ADC reading, sensor sample, free-memory
  estimate, the estimator itself) are parameters of the function reading them.
-/

namespace Kardiac

/-! ## Constants (lines 30-66, 84) -/

@[simp] def BUZZER_PIN : Nat := 6
@[simp] def SENSOR_INT : Nat := 100
@[simp] def DISP_INT : Nat := 100
@[simp] def BUF_SIZE : Nat := 25
@[simp] def FINGER_THR : Nat := 50000
@[simp] def MAX_ALERT : Nat := 3
@[simp] def MAX_LOG : Nat := 3
@[simp] def MAX_STR : Nat := 20
@[simp] def ALERT_INFO : Nat := 0
@[simp] def ALERT_WARN : Nat := 1
@[simp] def ALERT_CRIT : Nat := 2
@[simp] def ALERT_CD : Nat := 5000
@[simp] def SCR_MAIN : Nat := 0

/-- Number of values of a `uint32_t`. -/
@[simp] def U32 : Nat := 4294967296

/-- Store into a `uint8_t`. -/
@[simp] def u8 (n : Nat) : Nat := n % 256

/-- Subtraction `a - b` of two `uint32_t` values. -/
def sub32 (a b : Nat) : Nat := (a % U32 + (U32 - b % U32)) % U32

/-! ## Data structures (lines 45-62) -/

/-- The record `struct VitalSigns`. -/
structure VitalSigns where
  hr : Nat
  spo2 : Nat
  bat : Nat
  finger : Bool
  ts : Nat
deriving DecidableEq, Repr

/-- The record `struct Alert`; `msg` is the text held in `char msg[MAX_STR]`. -/
structure Alert where
  level : Nat
  msg : List Char
  ts : Nat
  ack : Bool
deriving DecidableEq, Repr

instance : Inhabited Alert := ⟨⟨0, [], 0, false⟩⟩

/-- Display colours used by the alert code. -/
inductive Color where
  | black
  | red
  | orange
  | yellow
  | green
  | blue
  | white
deriving DecidableEq, Repr

/-- One call to the outside world. -/
inductive Event where
  | digitalWrite (pin : Nat) (high : Bool)
  | delay (ms : Nat)
  | fillRect (x y w h : Nat) (c : Color)
  | setTextColor (c : Color)
  | setTextSize (n : Nat)
  | setCursor (x y : Nat)
  | println (msg : List Char)
  | print (msg : List Char)
  | estimate (ir : List Nat) (len : Int) (red : List Nat)
  | nextSample
deriving DecidableEq, Repr

/-- What `maxim_heart_rate_and_oxygen_saturation` writes through its four
output pointers. -/
structure EstOut where
  spo2 : Int
  validSpo2 : Int
  hr : Int
  validHr : Int
deriving DecidableEq, Repr

/-- The external estimator: infrared buffer, buffer length, red buffer. -/
abbrev Estimator := List Nat → Int → List Nat → EstOut

/-- The global variables (lines 74-84), the two function-local statics, the
`millis()` oracle and the trace of external calls. -/
structure State where
  screen : Nat
  vitals : VitalSigns
  lastSensor : Nat
  lastDisp : Nat
  lastAlert : Nat
  lastAlertTime : Nat
  irBuf : List Nat
  redBuf : List Nat
  bufLen : Int
  spo2 : Int
  hr : Int
  validSpo2 : Int
  validHr : Int
  bufIdx : Nat
  alertCnt : Nat
  alertLogCnt : Nat
  finger : Bool
  alerts : List Alert
  alertLog : List Alert
  /-- The static `alertTime` of `showAlert`; `none` until first initialised. -/
  alertTime : Option Nat
  /-- The static `lastCheck` of `chkMem`. -/
  lastCheck : Nat
  clock : Nat → Nat
  reads : Nat
  out : List Event

/-- The state after static initialisation, before `setup()`. -/
def initState (clock : Nat → Nat) : State :=
  { screen := SCR_MAIN
    vitals := ⟨0, 0, 0, false, 0⟩
    lastSensor := 0, lastDisp := 0, lastAlert := 0, lastAlertTime := 0
    irBuf := List.replicate BUF_SIZE 0
    redBuf := List.replicate BUF_SIZE 0
    bufLen := BUF_SIZE
    spo2 := 0, hr := 0, validSpo2 := 0, validHr := 0
    bufIdx := 0, alertCnt := 0, alertLogCnt := 0
    finger := false
    alerts := List.replicate MAX_ALERT default
    alertLog := List.replicate MAX_LOG default
    alertTime := none
    lastCheck := 0
    clock := clock
    reads := 0
    out := [] }

/-- The arrays have their declared sizes. -/
def State.Shape (s : State) : Prop :=
  s.alerts.length = MAX_ALERT ∧ s.alertLog.length = MAX_LOG ∧
  s.irBuf.length = BUF_SIZE ∧ s.redBuf.length = BUF_SIZE

instance (s : State) : Decidable s.Shape := by
  unfold State.Shape; infer_instance

/-- The active alerts: the first `alertCnt` slots of `alerts`. -/
def State.active (s : State) : List Alert := s.alerts.take s.alertCnt

/-- The alert log: the first `alertLogCnt` slots of `alertLog`. -/
def State.log (s : State) : List Alert := s.alertLog.take s.alertLogCnt

/-! ## Primitives -/

/-- The value the next `millis()` call returns. -/
def now (s : State) : Nat := s.clock s.reads % U32

/-- Account for one `millis()` call. -/
def tick (s : State) : State := { s with reads := s.reads + 1 }

/-- Append external calls to the trace. -/
def emit (evs : List Event) (s : State) : State := { s with out := s.out ++ evs }

/-- The text `strncpy(dst, src, n)` leaves in `dst`. -/
def strncpy (src : List Char) (n : Nat) : List Char := src.take n

/-- The text `snprintf(buf, size, ...)` leaves in `buf`, given the full
formatted text. -/
def snprintf (size : Nat) (text : List Char) : List Char := text.take (size - 1)

/-- Conversion `%d` of a non-negative value. -/
def fmtD (n : Nat) : List Char := Nat.toDigits 10 n

/-- The array after `memmove(xs + dst, xs + src, n * sizeof *xs)`. -/
def memmove {α : Type} (xs : List α) (dst src n : Nat) : List α :=
  xs.take dst ++ (xs.drop src).take n ++ xs.drop (dst + n)

/-! ## Alerts (lines 290-375) -/

/-- Lines 342-349: the external calls made by `playAlert`, one group per
iteration of the loop. -/
def playAlertEvents (lvl : Nat) : List Event :=
  let cnt := if lvl = ALERT_CRIT then 3 else if lvl = ALERT_WARN then 2 else 1
  let dur := if lvl = ALERT_CRIT then 100 else 200
  (List.range cnt).flatMap fun i =>
    [Event.digitalWrite BUZZER_PIN true, Event.delay dur,
     Event.digitalWrite BUZZER_PIN false] ++
    (if i + 1 < cnt then [Event.delay 100] else [])

/-- Lines 341-350. -/
def playAlert (lvl : Nat) (s : State) : State :=
  emit (playAlertEvents lvl) s

/-- Lines 353-358: the banner is drawn. -/
def bannerDraw (msg : List Char) (lvl : Nat) : List Event :=
  let c := if lvl = ALERT_CRIT then Color.red
           else if lvl = ALERT_WARN then Color.orange else Color.yellow
  [Event.fillRect 0 20 240 10 c, Event.setTextColor Color.black,
   Event.setTextSize 1, Event.setCursor 5 22, Event.println msg]

/-- Lines 352-364. -/
def showAlert (msg : List Char) (lvl : Nat) (s : State) : State :=
  let s := emit (bannerDraw msg lvl) s
  let s := match s.alertTime with
    | none => { tick s with alertTime := some (now s) }
    | some _ => s
  let t := now s
  let s := tick s
  if sub32 t (s.alertTime.getD 0) > 5000 then
    let s := emit [Event.fillRect 0 20 240 10 Color.black] s
    { tick s with alertTime := some (now s) }
  else s

/-- The record written by lines 317-320, 324-327 and 331-334. -/
def mkAlert (lvl : Nat) (msg : List Char) (t : Nat) : Alert :=
  { level := lvl, msg := strncpy msg MAX_STR, ts := t, ack := false }

/-- Lines 316-322: insertion into the active alerts, dropped when full. -/
def pushActive (lvl : Nat) (msg : List Char) (s : State) : State :=
  if s.alertCnt < MAX_ALERT then
    { tick s with
      alerts := s.alerts.set s.alertCnt (mkAlert lvl msg (now s))
      alertCnt := u8 (s.alertCnt + 1) }
  else s

/-- Lines 323-335: insertion into the alert log, shifting when full. -/
def pushLog (lvl : Nat) (msg : List Char) (s : State) : State :=
  if s.alertLogCnt < MAX_LOG then
    { tick s with
      alertLog := s.alertLog.set s.alertLogCnt (mkAlert lvl msg (now s))
      alertLogCnt := u8 (s.alertLogCnt + 1) }
  else
    { tick s with
      alertLog := (memmove s.alertLog 0 1 (MAX_LOG - 1)).set (MAX_LOG - 1)
        (mkAlert lvl msg (now s)) }

/-- Line 336. -/
def stampAlert (s : State) : State := { tick s with lastAlertTime := now s }

/-- Lines 314-339. -/
def trigAlert (lvl : Nat) (msg : List Char) (s : State) : State :=
  if sub32 (now s) s.lastAlertTime < ALERT_CD then tick s
  else
    showAlert msg lvl (playAlert lvl (stampAlert (pushLog lvl msg (pushActive lvl msg (tick s)))))

/-- The test on line 370: the alert is unacknowledged and at most 30000 ms
old at clock value `t`. -/
def keepAlert (t : Nat) (a : Alert) : Bool :=
  !a.ack && decide (sub32 t a.ts ≤ 30000)

/-- Lines 370-372: one iteration of the sweep; the accumulator is
`(newCnt, alerts)`. -/
def rmStep (t : Nat) (acc : Nat × List Alert) (i : Nat) : Nat × List Alert :=
  if keepAlert t (acc.2.getD i default) then
    (u8 (acc.1 + 1), acc.2.set acc.1 (acc.2.getD i default))
  else acc

/-- Lines 366-375. -/
def rmAlerts (s : State) : State :=
  let t := now s
  let s := tick s
  let r := (List.range s.alertCnt).foldl (rmStep t) (0, s.alerts)
  { s with alerts := r.2, alertCnt := r.1 }

/-- Lines 292-298. -/
def chkHr (s : State) : State :=
  if s.vitals.finger ∧ s.vitals.hr > 0 then
    if s.vitals.hr < 60 ∨ s.vitals.hr > 100 then
      let msg := snprintf MAX_STR (['H', 'R', ':'] ++ fmtD s.vitals.hr)
      let lvl := if s.vitals.hr < 50 ∨ s.vitals.hr > 120 then ALERT_CRIT else ALERT_WARN
      trigAlert lvl msg s
    else s
  else s

/-- Lines 299-305. -/
def chkSpo2 (s : State) : State :=
  if s.vitals.finger ∧ s.vitals.spo2 > 0 then
    if s.vitals.spo2 < 95 then
      let msg := snprintf MAX_STR (['S', 'p', 'O', '2', ':'] ++ fmtD s.vitals.spo2)
      let lvl := if s.vitals.spo2 < 90 then ALERT_CRIT else ALERT_WARN
      trigAlert lvl msg s
    else s
  else s

/-- Lines 306-310. -/
def chkBat (s : State) : State :=
  if s.vitals.bat < 20 then
    let msg := snprintf MAX_STR (['B', 'a', 't', ':'] ++ fmtD s.vitals.bat)
    let lvl := if s.vitals.bat < 10 then ALERT_CRIT else ALERT_WARN
    trigAlert lvl msg s
  else s

/-- Lines 290-312: the three checks in source order, then the sweep. -/
def chkAlerts (s : State) : State :=
  rmAlerts (chkBat (chkSpo2 (chkHr s)))

/-! ## Sensors (lines 251-277) -/

/-- The value of the expression on line 252 before it is stored, in exact
arithmetic. -/
def batComputed (raw : Nat) : ℚ := ((raw : ℚ) / 1023.0 * 5.0 - 3.0) / 1.2 * 100

/-- Store of a floating-point value into a `uint8_t` on the AVR target: the
value is truncated toward zero to a 32-bit integer and the low byte is kept. -/
def floatToU8 (x : ℚ) : Nat := (Int.tdiv x.num x.den % 256).toNat

/-- Store of an `int32_t` into a `uint8_t`. -/
def intToU8 (x : Int) : Nat := (x % 256).toNat

/-- What a `uint16_t*` sees when pointed at a `uint32_t` array (little-endian):
each 32-bit word is two consecutive 16-bit elements, low half first. -/
def u16view (buf : List Nat) : List Nat :=
  buf.flatMap fun w => [w % 65536, w / 65536 % 65536]

/-- Lines 252-254: battery percentage and time stamp.  `raw` is the result of
`analogRead(BATTERY_PIN)`. -/
def readBattery (raw : Nat) (s : State) : State :=
  let s := { s with vitals := { s.vitals with bat := floatToU8 (batComputed raw) } }
  let s := { s with vitals := { s.vitals with
    bat := if s.vitals.bat > 100 then 100 else if s.vitals.bat < 0 then 0 else s.vitals.bat } }
  { tick s with vitals := { s.vitals with ts := now s } }

/-- Lines 257-261: store the sample pair, republish the finger flag, advance
the cursor. -/
def recordSample (red ir : Nat) (s : State) : State :=
  let s := { s with redBuf := s.redBuf.set s.bufIdx red }
  let s := { s with irBuf := s.irBuf.set s.bufIdx ir }
  let s := { s with finger := decide (s.irBuf.getD s.bufIdx 0 > FINGER_THR) }
  let s := { s with vitals := { s.vitals with finger := s.finger } }
  { s with bufIdx := u8 (s.bufIdx + 1) }

/-- Line 263: the cursor returns to the start of the buffers. -/
def rewind (s : State) : State := { s with bufIdx := 0 }

/-- Lines 264-273: what happens once a window is complete. -/
def estimatePass (est : Estimator) (s : State) : State :=
  if s.finger then
    let e := est (u16view s.irBuf) s.bufLen (u16view s.redBuf)
    let s := emit [Event.estimate (u16view s.irBuf) s.bufLen (u16view s.redBuf)] s
    let s := { s with spo2 := e.spo2, validSpo2 := e.validSpo2,
                      hr := e.hr, validHr := e.validHr }
    let s :=
      if s.validHr ≠ 0 ∧ s.hr > 0 ∧ s.hr < 200 then
        { s with vitals := { s.vitals with hr := intToU8 s.hr } }
      else s
    if s.validSpo2 ≠ 0 ∧ s.spo2 > 0 ∧ s.spo2 ≤ 100 then
      { s with vitals := { s.vitals with spo2 := intToU8 s.spo2 } }
    else s
  else
    { s with vitals := { s.vitals with hr := 0, spo2 := 0 } }

/-- Lines 251-277.  `raw` is the result of `analogRead(BATTERY_PIN)`; `sample`
is `none` when `sensor.available()` is false and otherwise the pair
`(sensor.getRed(), sensor.getIR())`. -/
def updSensors (est : Estimator) (raw : Nat) (sample : Option (Nat × Nat))
    (s : State) : State :=
  let s := readBattery raw s
  match sample with
  | none => s
  | some (red, ir) =>
    let s := recordSample red ir s
    let s :=
      if s.bufIdx ≥ BUF_SIZE then estimatePass est (rewind s)
      else s
    emit [Event.nextSample] s

/-- One call of `updSensors` per element of `inputs`, in order. -/
def runSensors (est : Estimator) (inputs : List (Nat × Option (Nat × Nat)))
    (s : State) : State :=
  inputs.foldl (fun st i => updSensors est i.1 i.2 st) s

/-- Feed a list of `(raw, red, ir)` readings, a sample being available at
every call. -/
def feed (est : Estimator) (ins : List (Nat × Nat × Nat)) (s : State) : State :=
  runSensors est (ins.map fun x => (x.1, some x.2)) s

/-! ## Memory (lines 392-404) -/

/-- Lines 392-404.  `mem` is the result of `freeMemory()`. -/
def chkMem (mem : Int) (s : State) : State :=
  let t := now s
  let s := tick s
  if sub32 t s.lastCheck > 30000 then
    let s : State := { tick s with lastCheck := now s }
    if mem < 100 then
      if s.alertLogCnt > 1 then
        { s with
          alertLog := memmove s.alertLog 0 1 (s.alertLogCnt - 1)
          alertLogCnt := u8 (s.alertLogCnt - 1) }
      else s
    else s
  else s

/-! ## Display (lines 197-225, 378-389) -/

/-- Lines 197-225: the external calls made by `updVitals`. -/
def updVitalsEvents (v : VitalSigns) : List Event :=
  [Event.fillRect 15 50 90 30 Color.black, Event.setTextColor Color.red,
   Event.setTextSize 2, Event.setCursor 20 55,
   Event.print (if v.finger ∧ v.hr > 0 then snprintf 8 (fmtD v.hr) else ['-', '-']),
   Event.fillRect 135 50 90 30 Color.black, Event.setTextColor Color.blue,
   Event.setCursor 140 55,
   Event.print (if v.finger ∧ v.spo2 > 0 then snprintf 8 (fmtD v.spo2) else ['-', '-']),
   Event.setTextSize 1,
   Event.setTextColor (if v.finger then Color.green else Color.red),
   Event.fillRect 15 95 100 10 Color.black, Event.setCursor 15 95,
   Event.println (if v.finger then ['O', 'K'] else ['F', 'i', 'n', 'g', 'e', 'r'])]

/-- Lines 197-225. -/
def updVitals (s : State) : State := emit (updVitalsEvents s.vitals) s

/-- Lines 378-389. -/
def updDisp (s : State) : State :=
  if s.screen = SCR_MAIN then
    let s := updVitals s
    let bat := s.vitals.bat
    emit [Event.setTextSize 1,
          Event.setTextColor (if bat > 20 then Color.green else Color.red),
          Event.setCursor 200 10,
          Event.println (snprintf 8 (fmtD bat ++ ['%']))] s
  else s

/-! ## Touch (lines 280-287) -/

/-- Lines 280-287.  `touch` is `none` when `ts.touched()` is false and
otherwise the raw point returned by `ts.getPoint()`; the mapped coordinates
are not used. -/
def handleTouch (touch : Option (Int × Int)) (s : State) : State :=
  match touch with
  | none => s
  | some _ => emit [Event.delay 200] s

/-! ## Main loop (lines 126-148) -/

/-- What one loop iteration reads from the outside world when it asks. -/
structure LoopIn where
  touch : Option (Int × Int)
  raw : Nat
  sample : Option (Nat × Nat)
  mem : Int
deriving DecidableEq, Repr

/-- Lines 131-134: the sensor update, `t` being the value of `now`. -/
def sensorStep (est : Estimator) (inp : LoopIn) (t : Nat) (s : State) : State :=
  if sub32 t s.lastSensor ≥ SENSOR_INT then
    updSensors est inp.raw inp.sample { s with lastSensor := t }
  else s

/-- Lines 136-139: the display update. -/
def dispStep (t : Nat) (s : State) : State :=
  if sub32 t s.lastDisp ≥ DISP_INT then updDisp { s with lastDisp := t } else s

/-- Lines 141-144: the alert check. -/
def alertStep (t : Nat) (s : State) : State :=
  if sub32 t s.lastAlert ≥ 1000 then chkAlerts { s with lastAlert := t } else s

/-- Lines 126-148: one iteration of `loop()`. -/
def loop (est : Estimator) (inp : LoopIn) (s : State) : State :=
  let t := now s
  let s := tick s
  let s := handleTouch inp.touch s
  let s := sensorStep est inp t s
  let s := dispStep t s
  let s := alertStep t s
  let s := chkMem inp.mem s
  emit [Event.delay 10] s

/-- One iteration of `loop()` per element of `inputs`, in order. -/
def runLoop (est : Estimator) (inputs : List LoopIn) (s : State) : State :=
  inputs.foldl (fun st i => loop est i st) s

/-! ## Observations used in the statements -/

/-- A clock that always reads `t`. -/
def constClock (t : Nat) : Nat → Nat := fun _ => t

/-- Going from `s` to `s'`, the alert `(lvl, msg)` was raised: the buzzer
pattern and the banner were emitted right after the trace of `s`, and the
newest entry of the alert log is that alert, unacknowledged. -/
def raised (s s' : State) (lvl : Nat) (msg : List Char) : Prop :=
  (s.out ++ playAlertEvents lvl ++ bannerDraw msg lvl) <+: s'.out ∧
  ∃ t, s'.log.getLast? = some ⟨lvl, msg, t, false⟩

/-- The cooldown gate of `trigAlert` (line 315) lets the next call through. -/
def cooldownElapsed (s : State) : Prop := ALERT_CD ≤ sub32 (now s) s.lastAlertTime

instance (s : State) : Decidable (cooldownElapsed s) := by
  unfold cooldownElapsed; infer_instance

/-- A state prepared with heart rate 200 and a finger on the sensor; the clock
reads 6000 ms and no alert has been raised yet. -/
def hr200State : State :=
  { initState (constClock 6000) with vitals := ⟨200, 98, 50, true, 0⟩ }

/-- The first (oldest) sample alert. -/
def alertA : Alert := ⟨ALERT_WARN, ['H', 'R', ':', '5', '5'], 1000, false⟩

/-- The second sample alert, already acknowledged. -/
def alertB : Alert := ⟨ALERT_CRIT, ['B', 'a', 't', ':', '5'], 12000, true⟩

/-- The third sample alert. -/
def alertC : Alert := ⟨ALERT_WARN, ['S', 'p', 'O', '2', ':', '9', '3'], 20000, false⟩

/-- A state with three active alerts and a full log; the clock reads 40000 ms
and the last alert was raised at 20000 ms. -/
def fullState : State :=
  { initState (constClock 40000) with
    alerts := [alertA, alertB, alertC], alertCnt := 3
    alertLog := [alertA, alertB, alertC], alertLogCnt := 3
    lastAlertTime := 20000 }

/-- An estimator that reports both results invalid. -/
def estInvalid : Estimator := fun _ _ _ => ⟨0, 0, 0, 0⟩

/-- An estimator that reports a valid SpO2 of 97 and a valid heart rate of 205. -/
def est205 : Estimator := fun _ _ _ => ⟨97, 1, 205, 1⟩

/-- A running state with last good readings `hr = 72`, `spo2 = 98`. -/
def goodState : State :=
  { initState (constClock 6000) with vitals := ⟨72, 98, 50, true, 0⟩, finger := true }

/-- A window of 25 readings whose first infrared sample is 0 (no finger) and
whose other 24 are 60000 (finger present). -/
def liftedFirst : List (Nat × Nat × Nat) :=
  (800, 0, 0) :: List.replicate 24 (800, 60000, 60000)

/-- A state whose log holds the single entry `alertA`; the clock reads
40000 ms and the memory check last ran at 0 ms. -/
def singleLogState : State :=
  { initState (constClock 40000) with
    alertLog := [alertA, default, default], alertLogCnt := 1 }

/-- The event drives the buzzer pin or draws on the banner strip
(the rectangle at `(0, 20)` of size `240 x 10`, text cursor `(5, 22)`). -/
def isAlertOutput : Event → Bool
  | Event.digitalWrite pin _ => decide (pin = BUZZER_PIN)
  | Event.fillRect x y w h _ => decide (x = 0 ∧ y = 20 ∧ w = 240 ∧ h = 10)
  | Event.setCursor x y => decide (x = 5 ∧ y = 22)
  | _ => false

/-- The alert state of start-up: cooldown timer 0, no active alert, empty log,
and no buzzer or banner output so far. -/
def Dormant (s : State) : Prop :=
  s.lastAlertTime = 0 ∧ s.alertCnt = 0 ∧ s.alertLogCnt = 0 ∧
  ∀ e ∈ s.out, isAlertOutput e = false

/-- The buzzer pattern in the words of the specification: `n` pulses of `d` ms
with a 100 ms gap between consecutive pulses and none after the last. -/
def pulseTrain (n d : Nat) : List Event :=
  List.intercalate [Event.delay 100]
    (List.replicate n [Event.digitalWrite BUZZER_PIN true, Event.delay d,
                       Event.digitalWrite BUZZER_PIN false])

/-- Total time spent in `delay` by a list of external calls. -/
def blockingTime : List Event → Nat
  | [] => 0
  | Event.delay ms :: rest => ms + blockingTime rest
  | _ :: rest => blockingTime rest

/-- The first violated check in the order heart rate, SpO2, battery, with the
level and message of its alert. -/
def firstViolation (v : VitalSigns) : Option (Nat × List Char) :=
  if v.finger = true ∧ 0 < v.hr ∧ (v.hr < 60 ∨ 100 < v.hr) then
    some (if v.hr < 50 ∨ 120 < v.hr then ALERT_CRIT else ALERT_WARN,
          snprintf MAX_STR (['H', 'R', ':'] ++ fmtD v.hr))
  else if v.finger = true ∧ 0 < v.spo2 ∧ v.spo2 < 95 then
    some (if v.spo2 < 90 then ALERT_CRIT else ALERT_WARN,
          snprintf MAX_STR (['S', 'p', 'O', '2', ':'] ++ fmtD v.spo2))
  else if v.bat < 20 then
    some (if v.bat < 10 then ALERT_CRIT else ALERT_WARN,
          snprintf MAX_STR (['B', 'a', 't', ':'] ++ fmtD v.bat))
  else none

/-- A state reached after the tick counter wrapped: the clock reads 50 ms, the
sensor last fired 100 ms earlier at `2^32 - 50`, the display 60 ms earlier at
`2^32 - 10`, the alert check 1000 ms earlier at `2^32 - 950`. -/
def wrappedState : State :=
  { initState (constClock 50) with
    lastSensor := 4294967246, lastDisp := 4294967286, lastAlert := 4294966346 }

/-- An iteration input with no touch, no sample and plenty of free memory. -/
def idleIn : LoopIn := ⟨none, 800, none, 500⟩

/-- The number of calls in `inputs` for which a sample was available. -/
def sampleCount : List (Nat × Option (Nat × Nat)) → Nat
  | [] => 0
  | (_, none) :: rest => sampleCount rest
  | (_, some _) :: rest => sampleCount rest + 1

/-- The state after raising only the alert of the first violated check (the
state itself when no check is violated). -/
def firstAlert (s : State) : State :=
  match firstViolation s.vitals with
  | none => s
  | some a => trigAlert a.1 a.2 s

/-- Two states hold the same active alerts, alert log, cooldown timer and
output trace. -/
def sameAlertState (a b : State) : Prop :=
  a.alerts = b.alerts ∧ a.alertCnt = b.alertCnt ∧ a.alertLog = b.alertLog ∧
  a.alertLogCnt = b.alertLogCnt ∧ a.lastAlertTime = b.lastAlertTime ∧ a.out = b.out

/-- A state with a finger present in which all three checks are violated
(`hr = 40`, `spo2 = 80`, `bat = 5`); the clock reads 6000 ms. -/
def allBadState : State :=
  { initState (constClock 6000) with vitals := ⟨40, 80, 5, true, 0⟩ }

/-- Invariant of the running program: the stored heart rate is below 200
(line 268 stores only such values and line 271 stores 0) and the alert log has
its declared size and a count within it. -/
def Running (s : State) : Prop :=
  s.vitals.hr < 200 ∧ s.alertLog.length = MAX_LOG ∧ s.alertLogCnt ≤ MAX_LOG

instance (s : State) : Decidable (Running s) := by
  unfold Running; infer_instance

/-- The state on which line 143 calls `chkAlerts` in the loop iteration that
starts in `s`. -/
def alertCallState (est : Estimator) (inp : LoopIn) (s : State) : State :=
  { dispStep (now s) (sensorStep est inp (now s) (handleTouch inp.touch (tick s))) with
    lastAlert := now s }

/-- A clock that reads 6000 ms for the first six calls and 12000 ms afterwards. -/
def stepClock : Nat → Nat := fun k => if k < 6 then 6000 else 12000

/-- A state one sample short of a full window: every infrared sample so far is
60000 and every red sample 55000. -/
def windowState : State :=
  { goodState with
    bufIdx := 24
    irBuf := List.replicate 25 60000
    redBuf := List.replicate 25 55000 }

/-! ## Frame lemmas: what each step leaves alone -/

@[simp] theorem tick_vitals (s : State) :
    (tick s).vitals = s.vitals := rfl

@[simp] theorem tick_lastAlertTime (s : State) :
    (tick s).lastAlertTime = s.lastAlertTime := rfl

@[simp] theorem tick_alertCnt (s : State) :
    (tick s).alertCnt = s.alertCnt := rfl

@[simp] theorem tick_alertLogCnt (s : State) :
    (tick s).alertLogCnt = s.alertLogCnt := rfl

@[simp] theorem tick_alerts (s : State) :
    (tick s).alerts = s.alerts := rfl

@[simp] theorem tick_alertLog (s : State) :
    (tick s).alertLog = s.alertLog := rfl

@[simp] theorem tick_alertTime (s : State) :
    (tick s).alertTime = s.alertTime := rfl

@[simp] theorem tick_lastCheck (s : State) :
    (tick s).lastCheck = s.lastCheck := rfl

@[simp] theorem tick_clock (s : State) :
    (tick s).clock = s.clock := rfl

@[simp] theorem tick_reads (s : State) :
    (tick s).reads = s.reads + 1 := rfl

@[simp] theorem tick_out (s : State) :
    (tick s).out = s.out := rfl

@[simp] theorem emit_vitals (evs : List Event) (s : State) :
    (emit evs s).vitals = s.vitals := rfl

@[simp] theorem emit_lastAlertTime (evs : List Event) (s : State) :
    (emit evs s).lastAlertTime = s.lastAlertTime := rfl

@[simp] theorem emit_alertCnt (evs : List Event) (s : State) :
    (emit evs s).alertCnt = s.alertCnt := rfl

@[simp] theorem emit_alertLogCnt (evs : List Event) (s : State) :
    (emit evs s).alertLogCnt = s.alertLogCnt := rfl

@[simp] theorem emit_alerts (evs : List Event) (s : State) :
    (emit evs s).alerts = s.alerts := rfl

@[simp] theorem emit_alertLog (evs : List Event) (s : State) :
    (emit evs s).alertLog = s.alertLog := rfl

@[simp] theorem emit_alertTime (evs : List Event) (s : State) :
    (emit evs s).alertTime = s.alertTime := rfl

@[simp] theorem emit_lastCheck (evs : List Event) (s : State) :
    (emit evs s).lastCheck = s.lastCheck := rfl

@[simp] theorem emit_clock (evs : List Event) (s : State) :
    (emit evs s).clock = s.clock := rfl

@[simp] theorem emit_reads (evs : List Event) (s : State) :
    (emit evs s).reads = s.reads := rfl

@[simp] theorem emit_out (evs : List Event) (s : State) :
    (emit evs s).out = s.out ++ evs := rfl

@[simp] theorem stampAlert_vitals (s : State) :
    (stampAlert s).vitals = s.vitals := rfl

@[simp] theorem stampAlert_lastAlertTime (s : State) :
    (stampAlert s).lastAlertTime = now s := rfl

@[simp] theorem stampAlert_alertCnt (s : State) :
    (stampAlert s).alertCnt = s.alertCnt := rfl

@[simp] theorem stampAlert_alertLogCnt (s : State) :
    (stampAlert s).alertLogCnt = s.alertLogCnt := rfl

@[simp] theorem stampAlert_alerts (s : State) :
    (stampAlert s).alerts = s.alerts := rfl

@[simp] theorem stampAlert_alertLog (s : State) :
    (stampAlert s).alertLog = s.alertLog := rfl

@[simp] theorem stampAlert_alertTime (s : State) :
    (stampAlert s).alertTime = s.alertTime := rfl

@[simp] theorem stampAlert_lastCheck (s : State) :
    (stampAlert s).lastCheck = s.lastCheck := rfl

@[simp] theorem stampAlert_clock (s : State) :
    (stampAlert s).clock = s.clock := rfl

@[simp] theorem stampAlert_reads (s : State) :
    (stampAlert s).reads = s.reads + 1 := rfl

@[simp] theorem stampAlert_out (s : State) :
    (stampAlert s).out = s.out := rfl

@[simp] theorem playAlert_vitals (lvl : Nat) (s : State) :
    (playAlert lvl s).vitals = s.vitals := rfl

@[simp] theorem playAlert_lastAlertTime (lvl : Nat) (s : State) :
    (playAlert lvl s).lastAlertTime = s.lastAlertTime := rfl

@[simp] theorem playAlert_alertCnt (lvl : Nat) (s : State) :
    (playAlert lvl s).alertCnt = s.alertCnt := rfl

@[simp] theorem playAlert_alertLogCnt (lvl : Nat) (s : State) :
    (playAlert lvl s).alertLogCnt = s.alertLogCnt := rfl

@[simp] theorem playAlert_alerts (lvl : Nat) (s : State) :
    (playAlert lvl s).alerts = s.alerts := rfl

@[simp] theorem playAlert_alertLog (lvl : Nat) (s : State) :
    (playAlert lvl s).alertLog = s.alertLog := rfl

@[simp] theorem playAlert_alertTime (lvl : Nat) (s : State) :
    (playAlert lvl s).alertTime = s.alertTime := rfl

@[simp] theorem playAlert_lastCheck (lvl : Nat) (s : State) :
    (playAlert lvl s).lastCheck = s.lastCheck := rfl

@[simp] theorem playAlert_clock (lvl : Nat) (s : State) :
    (playAlert lvl s).clock = s.clock := rfl

@[simp] theorem playAlert_reads (lvl : Nat) (s : State) :
    (playAlert lvl s).reads = s.reads := rfl

@[simp] theorem playAlert_out (lvl : Nat) (s : State) :
    (playAlert lvl s).out = s.out ++ playAlertEvents lvl := rfl

@[simp] theorem pushActive_vitals (lvl : Nat) (msg : List Char) (s : State) :
    (pushActive lvl msg s).vitals = s.vitals := by
  unfold pushActive; split <;> rfl

@[simp] theorem pushActive_lastAlertTime (lvl : Nat) (msg : List Char) (s : State) :
    (pushActive lvl msg s).lastAlertTime = s.lastAlertTime := by
  unfold pushActive; split <;> rfl

@[simp] theorem pushActive_alertLogCnt (lvl : Nat) (msg : List Char) (s : State) :
    (pushActive lvl msg s).alertLogCnt = s.alertLogCnt := by
  unfold pushActive; split <;> rfl

@[simp] theorem pushActive_alertLog (lvl : Nat) (msg : List Char) (s : State) :
    (pushActive lvl msg s).alertLog = s.alertLog := by
  unfold pushActive; split <;> rfl

@[simp] theorem pushActive_alertTime (lvl : Nat) (msg : List Char) (s : State) :
    (pushActive lvl msg s).alertTime = s.alertTime := by
  unfold pushActive; split <;> rfl

@[simp] theorem pushActive_lastCheck (lvl : Nat) (msg : List Char) (s : State) :
    (pushActive lvl msg s).lastCheck = s.lastCheck := by
  unfold pushActive; split <;> rfl

@[simp] theorem pushActive_clock (lvl : Nat) (msg : List Char) (s : State) :
    (pushActive lvl msg s).clock = s.clock := by
  unfold pushActive; split <;> rfl

@[simp] theorem pushActive_out (lvl : Nat) (msg : List Char) (s : State) :
    (pushActive lvl msg s).out = s.out := by
  unfold pushActive; split <;> rfl

@[simp] theorem pushLog_vitals (lvl : Nat) (msg : List Char) (s : State) :
    (pushLog lvl msg s).vitals = s.vitals := by
  unfold pushLog; split <;> rfl

@[simp] theorem pushLog_lastAlertTime (lvl : Nat) (msg : List Char) (s : State) :
    (pushLog lvl msg s).lastAlertTime = s.lastAlertTime := by
  unfold pushLog; split <;> rfl

@[simp] theorem pushLog_alertCnt (lvl : Nat) (msg : List Char) (s : State) :
    (pushLog lvl msg s).alertCnt = s.alertCnt := by
  unfold pushLog; split <;> rfl

@[simp] theorem pushLog_alerts (lvl : Nat) (msg : List Char) (s : State) :
    (pushLog lvl msg s).alerts = s.alerts := by
  unfold pushLog; split <;> rfl

@[simp] theorem pushLog_alertTime (lvl : Nat) (msg : List Char) (s : State) :
    (pushLog lvl msg s).alertTime = s.alertTime := by
  unfold pushLog; split <;> rfl

@[simp] theorem pushLog_lastCheck (lvl : Nat) (msg : List Char) (s : State) :
    (pushLog lvl msg s).lastCheck = s.lastCheck := by
  unfold pushLog; split <;> rfl

@[simp] theorem pushLog_clock (lvl : Nat) (msg : List Char) (s : State) :
    (pushLog lvl msg s).clock = s.clock := by
  unfold pushLog; split <;> rfl

@[simp] theorem pushLog_reads (lvl : Nat) (msg : List Char) (s : State) :
    (pushLog lvl msg s).reads = s.reads + 1 := by
  unfold pushLog; split <;> rfl

@[simp] theorem pushLog_out (lvl : Nat) (msg : List Char) (s : State) :
    (pushLog lvl msg s).out = s.out := by
  unfold pushLog; split <;> rfl

@[simp] theorem showAlert_vitals (msg : List Char) (lvl : Nat) (s : State) :
    (showAlert msg lvl s).vitals = s.vitals := by
  unfold showAlert; cases h : s.alertTime <;> simp only [emit, tick, h] <;> split <;> rfl

@[simp] theorem showAlert_lastAlertTime (msg : List Char) (lvl : Nat) (s : State) :
    (showAlert msg lvl s).lastAlertTime = s.lastAlertTime := by
  unfold showAlert; cases h : s.alertTime <;> simp only [emit, tick, h] <;> split <;> rfl

@[simp] theorem showAlert_alertCnt (msg : List Char) (lvl : Nat) (s : State) :
    (showAlert msg lvl s).alertCnt = s.alertCnt := by
  unfold showAlert; cases h : s.alertTime <;> simp only [emit, tick, h] <;> split <;> rfl

@[simp] theorem showAlert_alertLogCnt (msg : List Char) (lvl : Nat) (s : State) :
    (showAlert msg lvl s).alertLogCnt = s.alertLogCnt := by
  unfold showAlert; cases h : s.alertTime <;> simp only [emit, tick, h] <;> split <;> rfl

@[simp] theorem showAlert_alerts (msg : List Char) (lvl : Nat) (s : State) :
    (showAlert msg lvl s).alerts = s.alerts := by
  unfold showAlert; cases h : s.alertTime <;> simp only [emit, tick, h] <;> split <;> rfl

@[simp] theorem showAlert_alertLog (msg : List Char) (lvl : Nat) (s : State) :
    (showAlert msg lvl s).alertLog = s.alertLog := by
  unfold showAlert; cases h : s.alertTime <;> simp only [emit, tick, h] <;> split <;> rfl

@[simp] theorem showAlert_lastCheck (msg : List Char) (lvl : Nat) (s : State) :
    (showAlert msg lvl s).lastCheck = s.lastCheck := by
  unfold showAlert; cases h : s.alertTime <;> simp only [emit, tick, h] <;> split <;> rfl

@[simp] theorem showAlert_clock (msg : List Char) (lvl : Nat) (s : State) :
    (showAlert msg lvl s).clock = s.clock := by
  unfold showAlert; cases h : s.alertTime <;> simp only [emit, tick, h] <;> split <;> rfl

theorem showAlert_out_banner (msg : List Char) (lvl : Nat) (s : State) :
    (s.out ++ bannerDraw msg lvl) <+: (showAlert msg lvl s).out := by
  unfold showAlert
  cases h : s.alertTime <;> simp only [emit, tick, h] <;> split <;> simp

theorem trigAlert_suppressed (lvl : Nat) (msg : List Char) (s : State)
    (h : sub32 (now s) s.lastAlertTime < ALERT_CD) : trigAlert lvl msg s = tick s := by
  unfold trigAlert
  exact if_pos h

theorem trigAlert_fired (lvl : Nat) (msg : List Char) (s : State)
    (h : cooldownElapsed s) :
    trigAlert lvl msg s =
      showAlert msg lvl (playAlert lvl (stampAlert
        (pushLog lvl msg (pushActive lvl msg (tick s))))) := by
  unfold trigAlert
  exact if_neg (Nat.not_lt.mpr h)

theorem trigAlert_fired_out (lvl : Nat) (msg : List Char) (s : State)
    (h : cooldownElapsed s) :
    (s.out ++ playAlertEvents lvl ++ bannerDraw msg lvl) <+: (trigAlert lvl msg s).out := by
  rw [trigAlert_fired lvl msg s h]
  have h9 := showAlert_out_banner msg lvl
    (playAlert lvl (stampAlert (pushLog lvl msg (pushActive lvl msg (tick s)))))
  simpa using h9

/-! ## The alert log as a bounded FIFO -/

theorem take_succ_set {α : Type} (l : List α) (n : Nat) (a : α) (h : n < l.length) :
    (l.set n a).take (n + 1) = l.take n ++ [a] := by
  induction l generalizing n with
  | nil => simp at h
  | cons x xs ih =>
    cases n with
    | zero => simp
    | succ k =>
      have hk : k < xs.length := by simpa using h
      simp [List.set, ih k hk]

theorem pushLog_cnt_succ (lvl : Nat) (msg : List Char) (s : State)
    (hcnt : s.alertLogCnt < MAX_LOG) :
    (pushLog lvl msg s).alertLogCnt = s.alertLogCnt + 1 := by
  have h256 : (s.alertLogCnt + 1) % 256 = s.alertLogCnt + 1 := by
    simp only [MAX_LOG] at hcnt; omega
  unfold pushLog
  rw [if_pos hcnt]
  simpa using h256

theorem pushLog_log_append (lvl : Nat) (msg : List Char) (s : State)
    (hlen : s.alertLog.length = MAX_LOG) (hcnt : s.alertLogCnt < MAX_LOG) :
    (pushLog lvl msg s).log = s.log ++ [mkAlert lvl msg (now s)] ∧
    (pushLog lvl msg s).alertLogCnt = s.alertLogCnt + 1 := by
  have h256 : (s.alertLogCnt + 1) % 256 = s.alertLogCnt + 1 := by
    simp only [MAX_LOG] at hcnt; omega
  unfold pushLog State.log
  rw [if_pos hcnt]
  simp only [u8, tick, h256]
  exact ⟨take_succ_set _ _ _ (by rw [hlen]; exact hcnt), trivial⟩

theorem pushLog_log_full (lvl : Nat) (msg : List Char) (s : State) (a b c : Alert)
    (hlog : s.alertLog = [a, b, c]) (hcnt : ¬ s.alertLogCnt < MAX_LOG) :
    (pushLog lvl msg s).alertLog = [b, c, mkAlert lvl msg (now s)] ∧
    (pushLog lvl msg s).alertLogCnt = s.alertLogCnt := by
  unfold pushLog
  rw [if_neg hcnt]
  simp [tick, hlog, memmove]

/-- Whatever the state of a well-shaped log, the newest entry after `pushLog`
is the alert just written. -/
theorem pushLog_getLast (lvl : Nat) (msg : List Char) (s : State)
    (hlen : s.alertLog.length = MAX_LOG) (hcnt : s.alertLogCnt ≤ MAX_LOG) :
    (pushLog lvl msg s).log.getLast? = some (mkAlert lvl msg (now s)) := by
  by_cases hlt : s.alertLogCnt < MAX_LOG
  · rw [(pushLog_log_append lvl msg s hlen hlt).1]
    simp
  · have h3 : s.alertLogCnt = 3 := by simp only [MAX_LOG] at hlt hcnt; omega
    match hl : s.alertLog, hlen with
    | [a, b, c], _ =>
      obtain ⟨e1, e2⟩ := pushLog_log_full lvl msg s a b c hl hlt
      unfold State.log
      rw [e1, e2, h3]
      simp

theorem fmtD_length (n : Nat) (h : n < 1000) : (fmtD n).length ≤ 3 :=
  Nat.toDigitsCore_length 10 (by decide) (n + 1) n 3 (by simpa using h) (by decide)

/-- A short prefix followed by a value below 1000 fits both the `snprintf`
buffer and the `strncpy` bound. -/
theorem short_msg_fits (pre : List Char) (n : Nat) (hp : pre.length ≤ 5) (h : n < 1000) :
    snprintf MAX_STR (pre ++ fmtD n) = pre ++ fmtD n ∧
    strncpy (pre ++ fmtD n) MAX_STR = pre ++ fmtD n := by
  have hl := fmtD_length n h
  unfold snprintf strncpy
  constructor <;> apply List.take_of_length_le <;> simp <;> omega

theorem trigAlert_fired_log (lvl : Nat) (msg : List Char) (s : State)
    (h : cooldownElapsed s) :
    (trigAlert lvl msg s).log = (pushLog lvl msg (pushActive lvl msg (tick s))).log := by
  rw [trigAlert_fired lvl msg s h]
  simp [State.log]

/-- A trigger that passes the gate raises its alert. -/
theorem trigAlert_raised (lvl : Nat) (msg : List Char) (s : State)
    (hlen : s.alertLog.length = MAX_LOG) (hcnt : s.alertLogCnt ≤ MAX_LOG)
    (h : cooldownElapsed s) (hmsg : strncpy msg MAX_STR = msg) :
    raised s (trigAlert lvl msg s) lvl msg := by
  refine ⟨trigAlert_fired_out lvl msg s h, now (pushActive lvl msg (tick s)), ?_⟩
  rw [trigAlert_fired_log lvl msg s h,
    pushLog_getLast lvl msg _ (by simpa using hlen) (by simpa using hcnt)]
  simpa [mkAlert] using hmsg

/-- A step that leaves the state alone raises nothing. -/
theorem not_raised_self (s : State) (lvl : Nat) (msg : List Char) :
    ¬ raised s s lvl msg := by
  rintro ⟨hp, -⟩
  have := hp.length_le
  simp [bannerDraw] at this

/-- The level of a raised alert is determined by the step. -/
theorem raised_level_unique (s s' : State) (l1 l2 : Nat) (m1 m2 : List Char)
    (h1 : raised s s' l1 m1) (h2 : raised s s' l2 m2) : l1 = l2 := by
  obtain ⟨-, t1, e1⟩ := h1
  obtain ⟨-, t2, e2⟩ := h2
  rw [e1] at e2
  simp only [Option.some.injEq, Alert.mk.injEq] at e2
  exact e2.1

/-- Lines 292-298 as a single conditional. -/
theorem chkHr_eq (s : State) :
    chkHr s =
      if s.vitals.finger = true ∧ 0 < s.vitals.hr ∧ (s.vitals.hr < 60 ∨ 100 < s.vitals.hr) then
        trigAlert (if s.vitals.hr < 50 ∨ 120 < s.vitals.hr then ALERT_CRIT else ALERT_WARN)
          (snprintf MAX_STR (['H', 'R', ':'] ++ fmtD s.vitals.hr)) s
      else s := by
  unfold chkHr
  by_cases h1 : s.vitals.finger = true ∧ s.vitals.hr > 0
  · by_cases h2 : s.vitals.hr < 60 ∨ s.vitals.hr > 100
    · rw [if_pos h1, if_pos (show s.vitals.finger = true ∧ 0 < s.vitals.hr ∧
        (s.vitals.hr < 60 ∨ 100 < s.vitals.hr) from ⟨h1.1, h1.2, h2⟩)]
      exact if_pos h2
    · rw [if_pos h1, if_neg (show ¬ (s.vitals.finger = true ∧ 0 < s.vitals.hr ∧
        (s.vitals.hr < 60 ∨ 100 < s.vitals.hr)) from fun h => h2 h.2.2)]
      exact if_neg h2
  · rw [if_neg h1, if_neg (show ¬ (s.vitals.finger = true ∧ 0 < s.vitals.hr ∧
      (s.vitals.hr < 60 ∨ 100 < s.vitals.hr)) from fun h => h1 ⟨h.1, h.2.1⟩)]

/-! ## The guard of the heart-rate block -/

/-- The heart-rate block as a function of an arbitrary state with `hr ≤ 200`
and the cooldown elapsed: it raises the alert `HR:<hr>` if and only if the
finger flag is set and `0 < hr` and (`hr < 60` or `100 < hr`), the guard of
lines 292-293; the level is Critical exactly when `hr < 50` or `120 < hr` and
Warning otherwise. -/
theorem chkHr_guard_iff (s : State) (hhr : s.vitals.hr ≤ 200)
    (hlen : s.alertLog.length = MAX_LOG) (hcnt : s.alertLogCnt ≤ MAX_LOG)
    (hc : cooldownElapsed s) :
    chkAlerts s = rmAlerts (chkBat (chkSpo2 (chkHr s))) ∧
    ((∃ lvl, raised s (chkHr s) lvl (['H', 'R', ':'] ++ fmtD s.vitals.hr)) ↔
      (s.vitals.finger = true ∧ 0 < s.vitals.hr ∧
        (s.vitals.hr < 60 ∨ 100 < s.vitals.hr))) ∧
    ∀ lvl, raised s (chkHr s) lvl (['H', 'R', ':'] ++ fmtD s.vitals.hr) →
      (lvl = ALERT_CRIT ↔ (s.vitals.hr < 50 ∨ 120 < s.vitals.hr)) ∧
      (lvl = ALERT_WARN ↔ ¬ (s.vitals.hr < 50 ∨ 120 < s.vitals.hr)) := by
  obtain ⟨hm1, hm2⟩ := short_msg_fits ['H', 'R', ':'] s.vitals.hr (by simp) (by omega)
  refine ⟨rfl, ?_, ?_⟩
  · constructor
    · rintro ⟨lvl, hr⟩
      by_contra hcond
      rw [chkHr_eq, if_neg hcond] at hr
      exact not_raised_self s lvl _ hr
    · intro hcond
      refine ⟨if s.vitals.hr < 50 ∨ 120 < s.vitals.hr then ALERT_CRIT else ALERT_WARN, ?_⟩
      rw [chkHr_eq, if_pos hcond, hm1]
      exact trigAlert_raised _ _ s hlen hcnt hc hm2
  · intro lvl hr
    by_cases hcond : s.vitals.finger = true ∧ 0 < s.vitals.hr ∧
        (s.vitals.hr < 60 ∨ 100 < s.vitals.hr)
    · have hr2 : raised s (chkHr s)
          (if s.vitals.hr < 50 ∨ 120 < s.vitals.hr then ALERT_CRIT else ALERT_WARN)
          (['H', 'R', ':'] ++ fmtD s.vitals.hr) := by
        rw [chkHr_eq, if_pos hcond, hm1]
        exact trigAlert_raised _ _ s hlen hcnt hc hm2
      have hl := raised_level_unique _ _ _ _ _ _ hr hr2
      subst hl
      by_cases hcrit : s.vitals.hr < 50 ∨ 120 < s.vitals.hr
      · simp [hcrit]
      · simp [hcrit]
    · rw [chkHr_eq, if_neg hcond] at hr
      exact absurd hr (not_raised_self s lvl _)

/-! ## C2: the global cooldown -/

/-- C2.  If a call of `trigAlert` passes the cooldown gate and a second call
reads the clock fewer than 5000 ms (32-bit subtraction) after the time stamped
by the first, the second call changes nothing but the count of clock reads:
active alerts, alert log, cooldown timer and output trace are those left by the
first call, so exactly one alert is logged (the log count grows by exactly one
when the log was not full, and the log is the old log plus the first alert). -/
theorem trigAlert_cooldown_suppresses (s : State) (lvl1 lvl2 : Nat) (msg1 msg2 : List Char)
    (h1 : cooldownElapsed s)
    (h2 : sub32 (now (trigAlert lvl1 msg1 s)) (trigAlert lvl1 msg1 s).lastAlertTime
            < ALERT_CD) :
    trigAlert lvl2 msg2 (trigAlert lvl1 msg1 s) = tick (trigAlert lvl1 msg1 s) ∧
    (trigAlert lvl2 msg2 (trigAlert lvl1 msg1 s)).alerts = (trigAlert lvl1 msg1 s).alerts ∧
    (trigAlert lvl2 msg2 (trigAlert lvl1 msg1 s)).alertCnt = (trigAlert lvl1 msg1 s).alertCnt ∧
    (trigAlert lvl2 msg2 (trigAlert lvl1 msg1 s)).alertLog = (trigAlert lvl1 msg1 s).alertLog ∧
    (trigAlert lvl2 msg2 (trigAlert lvl1 msg1 s)).alertLogCnt
      = (trigAlert lvl1 msg1 s).alertLogCnt ∧
    (trigAlert lvl2 msg2 (trigAlert lvl1 msg1 s)).lastAlertTime
      = (trigAlert lvl1 msg1 s).lastAlertTime ∧
    (trigAlert lvl2 msg2 (trigAlert lvl1 msg1 s)).out = (trigAlert lvl1 msg1 s).out ∧
    (s.alertLogCnt < MAX_LOG →
      (trigAlert lvl2 msg2 (trigAlert lvl1 msg1 s)).alertLogCnt = s.alertLogCnt + 1) ∧
    (s.alertLog.length = MAX_LOG → s.alertLogCnt < MAX_LOG →
      (trigAlert lvl2 msg2 (trigAlert lvl1 msg1 s)).log
        = s.log ++ [mkAlert lvl1 msg1 (now (pushActive lvl1 msg1 (tick s)))]) := by
  have e := trigAlert_suppressed lvl2 msg2 (trigAlert lvl1 msg1 s) h2
  rw [e]
  refine ⟨rfl, rfl, rfl, rfl, rfl, rfl, rfl, ?_, ?_⟩
  · intro hlt
    rw [trigAlert_fired lvl1 msg1 s h1]
    simp only [tick_alertLogCnt, showAlert_alertLogCnt, playAlert_alertLogCnt,
      stampAlert_alertLogCnt]
    rw [pushLog_cnt_succ lvl1 msg1 _ (by simpa using hlt)]
    simp
  · intro hlen hlt
    show (trigAlert lvl1 msg1 s).log = _
    rw [trigAlert_fired_log lvl1 msg1 s h1,
      (pushLog_log_append lvl1 msg1 _ (by simpa using hlen) (by simpa using hlt)).1]
    simp [State.log]

/-- C2 witness: at a constant clock of 6000 ms the first trigger passes, the
second is suppressed, and the log holds the first alert only. -/
theorem trigAlert_cooldown_suppresses_witness :
    cooldownElapsed hr200State ∧
    (trigAlert ALERT_WARN ['B', 'a', 't', ':', '9']
      (trigAlert ALERT_CRIT ['H', 'R', ':', '2', '0', '0'] hr200State)).alertLogCnt = 1 ∧
    (trigAlert ALERT_WARN ['B', 'a', 't', ':', '9']
      (trigAlert ALERT_CRIT ['H', 'R', ':', '2', '0', '0'] hr200State)).out
      = (trigAlert ALERT_CRIT ['H', 'R', ':', '2', '0', '0'] hr200State).out := by
  have h := trigAlert_cooldown_suppresses hr200State ALERT_CRIT ALERT_WARN
    ['H', 'R', ':', '2', '0', '0'] ['B', 'a', 't', ':', '9'] (by decide) (by decide)
  exact ⟨by decide, h.2.2.2.2.2.2.2.1 (by decide), h.2.2.2.2.2.2.1⟩

/-! ## C3: the alert log is a FIFO of capacity 3 -/

theorem trigAlert_alertLogCnt_le (s : State) (lvl : Nat) (msg : List Char)
    (h : s.alertLogCnt ≤ MAX_LOG) : (trigAlert lvl msg s).alertLogCnt ≤ MAX_LOG := by
  by_cases hc : cooldownElapsed s
  · rw [trigAlert_fired lvl msg s hc]
    simp only [showAlert_alertLogCnt, playAlert_alertLogCnt, stampAlert_alertLogCnt]
    by_cases hlt : (pushActive lvl msg (tick s)).alertLogCnt < MAX_LOG
    · rw [pushLog_cnt_succ lvl msg _ hlt]; exact hlt
    · unfold pushLog
      rw [if_neg hlt]
      simpa using h
  · rw [trigAlert_suppressed lvl msg s (Nat.not_le.mp hc)]
    exact h

theorem chkMem_alertLogCnt_le (s : State) (mem : Int) :
    (chkMem mem s).alertLogCnt ≤ s.alertLogCnt := by
  unfold chkMem
  simp only []
  split
  · split
    · split
      · show (s.alertLogCnt - 1) % 256 ≤ s.alertLogCnt
        exact (Nat.mod_le _ _).trans (Nat.sub_le _ _)
      · exact Nat.le_refl _
    · exact Nat.le_refl _
  · exact Nat.le_refl _

/-- C3.  `alertLogCnt ≤ 3` is preserved by `trigAlert` and by `chkMem`.  A
trigger that passes the gate on a full log `[a, b, c]` leaves `[b, c, new]`
with the count still 3; on a log with fewer than 3 entries it appends the new
alert at the end. -/
theorem alertLog_bounded_fifo (s : State) (lvl : Nat) (msg : List Char) (mem : Int) :
    (s.alertLogCnt ≤ MAX_LOG →
      (trigAlert lvl msg s).alertLogCnt ≤ MAX_LOG ∧ (chkMem mem s).alertLogCnt ≤ MAX_LOG) ∧
    (cooldownElapsed s → ∀ a b c, s.alertLog = [a, b, c] → s.alertLogCnt = MAX_LOG →
      (trigAlert lvl msg s).log = [b, c, mkAlert lvl msg (now (pushActive lvl msg (tick s)))] ∧
      (trigAlert lvl msg s).alertLogCnt = MAX_LOG) ∧
    (cooldownElapsed s → s.alertLog.length = MAX_LOG → s.alertLogCnt < MAX_LOG →
      (trigAlert lvl msg s).log
        = s.log ++ [mkAlert lvl msg (now (pushActive lvl msg (tick s)))] ∧
      (trigAlert lvl msg s).alertLogCnt = s.alertLogCnt + 1) := by
  refine ⟨fun h => ⟨trigAlert_alertLogCnt_le s lvl msg h,
    (chkMem_alertLogCnt_le s mem).trans h⟩, ?_, ?_⟩
  · intro hc a b c hlog hcnt
    obtain ⟨e1, e2⟩ := pushLog_log_full lvl msg (pushActive lvl msg (tick s)) a b c
      (by simpa using hlog) (by simp [hcnt])
    have e3 : (trigAlert lvl msg s).alertLogCnt = MAX_LOG := by
      rw [trigAlert_fired lvl msg s hc]
      simpa [hcnt] using e2
    refine ⟨?_, e3⟩
    rw [trigAlert_fired_log lvl msg s hc]
    unfold State.log
    rw [e1, e2]
    simp [hcnt]
  · intro hc hlen hlt
    obtain ⟨e1, e2⟩ := pushLog_log_append lvl msg (pushActive lvl msg (tick s))
      (by simpa using hlen) (by simpa using hlt)
    constructor
    · rw [trigAlert_fired_log lvl msg s hc, e1]
      simp [State.log]
    · rw [trigAlert_fired lvl msg s hc]
      simpa using e2

/-- C3 witness: a fourth alert pushed into the full log `[A, B, C]`. -/
theorem alertLog_bounded_fifo_witness :
    (trigAlert ALERT_CRIT ['H', 'R', ':', '4', '0'] fullState).alertLogCnt ≤ MAX_LOG ∧
    (trigAlert ALERT_CRIT ['H', 'R', ':', '4', '0'] fullState).log
      = [alertB, alertC, ⟨ALERT_CRIT, ['H', 'R', ':', '4', '0'], 40000, false⟩] ∧
    (trigAlert ALERT_CRIT ['H', 'R', ':', '2', '0', '0'] hr200State).log
      = [⟨ALERT_CRIT, ['H', 'R', ':', '2', '0', '0'], 6000, false⟩] := by
  have h := alertLog_bounded_fifo fullState ALERT_CRIT ['H', 'R', ':', '4', '0'] 50
  have g := alertLog_bounded_fifo hr200State ALERT_CRIT ['H', 'R', ':', '2', '0', '0'] 50
  refine ⟨(h.1 (by decide)).1, ?_, ?_⟩
  · exact (h.2.1 (by decide) alertA alertB alertC rfl rfl).1.trans (by decide)
  · exact (g.2.2 (by decide) (by decide) (by decide)).1.trans (by decide)

/-! ## C4: the active alerts never exceed capacity 3 -/

theorem pushActive_full (lvl : Nat) (msg : List Char) (s : State)
    (h : ¬ s.alertCnt < MAX_ALERT) : pushActive lvl msg s = s := by
  unfold pushActive
  exact if_neg h

theorem pushActive_alertCnt_le (lvl : Nat) (msg : List Char) (s : State)
    (h : s.alertCnt ≤ MAX_ALERT) : (pushActive lvl msg s).alertCnt ≤ MAX_ALERT := by
  unfold pushActive
  split
  · rename_i hlt
    show (s.alertCnt + 1) % 256 ≤ MAX_ALERT
    exact (Nat.mod_le _ _).trans hlt
  · exact h

theorem trigAlert_alertCnt_le (s : State) (lvl : Nat) (msg : List Char)
    (h : s.alertCnt ≤ MAX_ALERT) : (trigAlert lvl msg s).alertCnt ≤ MAX_ALERT := by
  by_cases hc : cooldownElapsed s
  · rw [trigAlert_fired lvl msg s hc]
    simp only [showAlert_alertCnt, playAlert_alertCnt, stampAlert_alertCnt, pushLog_alertCnt]
    exact pushActive_alertCnt_le lvl msg (tick s) h
  · rw [trigAlert_suppressed lvl msg s (Nat.not_le.mp hc)]
    exact h

/-- The sweep never counts more entries than it has visited. -/
theorem rmLoop_cnt_le (t : Nat) (l : List Alert) :
    ∀ n, ((List.range n).foldl (rmStep t) (0, l)).1 ≤ n := by
  intro n
  induction n with
  | zero => simp
  | succ n ih =>
    rw [List.range_succ, List.foldl_append]
    generalize (List.range n).foldl (rmStep t) (0, l) = r at ih
    simp only [List.foldl_cons, List.foldl_nil]
    unfold rmStep
    split
    · show (r.1 + 1) % 256 ≤ n + 1
      exact (Nat.mod_le _ _).trans (by omega)
    · omega

theorem rmAlerts_alertCnt_le (s : State) : (rmAlerts s).alertCnt ≤ s.alertCnt :=
  rmLoop_cnt_le (now s) s.alerts s.alertCnt

/-- C4.  `alertCnt ≤ 3` is preserved by `trigAlert` and by `rmAlerts`.  A
trigger that passes the gate while 3 alerts are active leaves the `alerts`
array and the count exactly as they were, and the new alert is still the
newest entry of the alert log. -/
theorem active_bounded_drop (s : State) (lvl : Nat) (msg : List Char) :
    (s.alertCnt ≤ MAX_ALERT →
      (trigAlert lvl msg s).alertCnt ≤ MAX_ALERT ∧ (rmAlerts s).alertCnt ≤ MAX_ALERT) ∧
    (cooldownElapsed s → s.alertCnt = MAX_ALERT →
      (trigAlert lvl msg s).alerts = s.alerts ∧
      (trigAlert lvl msg s).alertCnt = MAX_ALERT ∧
      (trigAlert lvl msg s).active = s.active ∧
      (s.alertLog.length = MAX_LOG → s.alertLogCnt ≤ MAX_LOG →
        (trigAlert lvl msg s).log.getLast? = some (mkAlert lvl msg (now (tick s))))) := by
  refine ⟨fun h => ⟨trigAlert_alertCnt_le s lvl msg h, (rmAlerts_alertCnt_le s).trans h⟩, ?_⟩
  intro hc hfull
  have hpa : pushActive lvl msg (tick s) = tick s :=
    pushActive_full lvl msg (tick s) (by simp [hfull])
  have e1 : (trigAlert lvl msg s).alerts = s.alerts := by
    rw [trigAlert_fired lvl msg s hc, hpa]; simp
  have e2 : (trigAlert lvl msg s).alertCnt = MAX_ALERT := by
    rw [trigAlert_fired lvl msg s hc, hpa]; simpa using hfull
  refine ⟨e1, e2, ?_, ?_⟩
  · unfold State.active
    rw [e1, e2, hfull]
  · intro hlen hcnt
    rw [trigAlert_fired_log lvl msg s hc, hpa]
    exact pushLog_getLast lvl msg (tick s) (by simpa using hlen) (by simpa using hcnt)

/-- C4 witness: a fourth alert while `[A, B, C]` are active. -/
theorem active_bounded_drop_witness :
    (trigAlert ALERT_CRIT ['H', 'R', ':', '4', '0'] fullState).alertCnt ≤ MAX_ALERT ∧
    (trigAlert ALERT_CRIT ['H', 'R', ':', '4', '0'] fullState).active
      = [alertA, alertB, alertC] ∧
    (trigAlert ALERT_CRIT ['H', 'R', ':', '4', '0'] fullState).log.getLast?
      = some ⟨ALERT_CRIT, ['H', 'R', ':', '4', '0'], 40000, false⟩ := by
  have h := active_bounded_drop fullState ALERT_CRIT ['H', 'R', ':', '4', '0']
  obtain ⟨-, -, h3, h4⟩ := h.2 (by decide) rfl
  exact ⟨(h.1 (by decide)).1, h3.trans (by decide), (h4 (by decide) (by decide)).trans (by decide)⟩

/-! ## C5: the expiry sweep -/

/-- Invariant of the sweep loop after `n` iterations over the array `l`: the
first `newCnt` slots hold the kept entries among the first `n`, in order, and
the slots from `n` on are untouched. -/
theorem rmLoop_inv (t : Nat) (l : List Alert) (hl : l.length < 256) :
    ∀ n, n ≤ l.length →
      (((List.range n).foldl (rmStep t) (0, l)).2.take
          ((List.range n).foldl (rmStep t) (0, l)).1 = (l.take n).filter (keepAlert t)) ∧
      ((List.range n).foldl (rmStep t) (0, l)).2.drop n = l.drop n ∧
      ((List.range n).foldl (rmStep t) (0, l)).2.length = l.length ∧
      ((List.range n).foldl (rmStep t) (0, l)).1 ≤ n := by
  intro n
  induction n with
  | zero => intro _; simp
  | succ n ih =>
    intro hn
    obtain ⟨h1, h2, h3, h4⟩ := ih (by omega)
    rw [List.range_succ, List.foldl_append]
    generalize (List.range n).foldl (rmStep t) (0, l) = r at h1 h2 h3 h4
    have hnl : n < l.length := by omega
    have hget : r.2.getD n default = l[n] := by
      rw [List.getD_eq_getElem?_getD]
      have : r.2[n]? = l[n]? := by
        have e1 := List.getElem?_drop r.2 n 0
        have e2 := List.getElem?_drop l n 0
        rw [h2] at e1
        simpa using e1.symm.trans e2
      rw [this, List.getElem?_eq_getElem hnl]
      rfl
    have hdrop : r.2.drop (n + 1) = l.drop (n + 1) := by
      have := congrArg (List.drop 1) h2
      simpa [List.drop_drop] using this
    have htake : l.take (n + 1) = l.take n ++ [l[n]] := by
      rw [List.take_succ, List.getElem?_eq_getElem hnl]
      rfl
    simp only [List.foldl_cons, List.foldl_nil]
    unfold rmStep
    rw [hget, htake, List.filter_append]
    by_cases hk : keepAlert t l[n] = true
    · rw [if_pos hk]
      have h256 : (r.1 + 1) % 256 = r.1 + 1 := by omega
      simp only [u8, h256, List.length_set]
      refine ⟨?_, ?_, h3, by omega⟩
      · rw [take_succ_set _ _ _ (by omega), h1]
        simp [hk]
      · rw [List.drop_set_of_lt _ _ (by omega)]
        exact hdrop
    · rw [if_neg hk]
      refine ⟨?_, hdrop, h3, by omega⟩
      rw [h1]
      simp [hk]

/-- C5.  After `rmAlerts` the active alerts are exactly the previous active
alerts that are unacknowledged and whose age `now - ts` (32-bit subtraction) is
at most 30000 ms, in their original order; acknowledged or older entries are
gone, and `alertCnt` is the number of kept entries. -/
theorem rmAlerts_filters (s : State) (hlen : s.alerts.length = MAX_ALERT)
    (hcnt : s.alertCnt ≤ MAX_ALERT) :
    (rmAlerts s).active = s.active.filter (keepAlert (now s)) ∧
    (rmAlerts s).alertCnt = (s.active.filter (keepAlert (now s))).length ∧
    (∀ a ∈ (rmAlerts s).active, a.ack = false ∧ sub32 (now s) a.ts ≤ 30000) ∧
    (∀ a, a.ack = true ∨ 30000 < sub32 (now s) a.ts → a ∉ (rmAlerts s).active) := by
  have hl : s.alerts.length < 256 := by rw [hlen]; decide
  obtain ⟨h1, -, h3, h4⟩ := rmLoop_inv (now s) s.alerts hl s.alertCnt (by rw [hlen]; exact hcnt)
  have hact : (rmAlerts s).active = s.active.filter (keepAlert (now s)) := h1
  refine ⟨hact, ?_, ?_, ?_⟩
  · have := congrArg List.length hact
    rw [← this]
    show _ = (List.take _ _).length
    rw [List.length_take]
    show (rmAlerts s).alertCnt = min (rmAlerts s).alertCnt _
    have hle : (rmAlerts s).alertCnt ≤ (rmAlerts s).alerts.length := by
      show _ ≤ ((List.range s.alertCnt).foldl (rmStep (now s)) (0, s.alerts)).2.length
      rw [h3, hlen]
      exact h4.trans hcnt
    omega
  · intro a ha
    rw [hact, List.mem_filter] at ha
    have hk := ha.2
    unfold keepAlert at hk
    simpa using hk
  · intro a hbad ha
    rw [hact, List.mem_filter] at ha
    have hk := ha.2
    unfold keepAlert at hk
    simp only [Bool.and_eq_true, Bool.not_eq_true', decide_eq_true_eq] at hk
    rcases hbad with h | h
    · rw [h] at hk; exact absurd hk.1 (by decide)
    · exact absurd hk.2 (Nat.not_le.mpr h)

/-- C5 witness: at 40000 ms the sweep of `[A, B, C]` keeps only `C`
(`A` is 39000 ms old, `B` is acknowledged). -/
theorem rmAlerts_filters_witness :
    (rmAlerts fullState).active = [alertC] ∧ (rmAlerts fullState).alertCnt = 1 := by
  have h := rmAlerts_filters fullState (by decide) (by decide)
  exact ⟨h.1.trans (by decide), h.2.1.trans (by decide)⟩


/-! ## Sensor update: one call -/

/-- The state in which the window-completion test of line 262 is made. -/
theorem updSensors_sample (est : Estimator) (raw red ir : Nat) (s : State) :
    updSensors est raw (some (red, ir)) s =
      emit [Event.nextSample]
        (if (recordSample red ir (readBattery raw s)).bufIdx ≥ BUF_SIZE then
          estimatePass est (rewind (recordSample red ir (readBattery raw s)))
        else recordSample red ir (readBattery raw s)) := rfl

theorem readback (l : List Nat) (i v : Nat) (h : i < l.length) :
    (l.set i v).getD i 0 = v := by
  rw [List.getD_eq_getElem?_getD]
  simp [h]

/-- The finger flag computed on line 259, given that the cursor is inside the
buffer. -/
theorem recordSample_finger (raw red ir : Nat) (s : State) (h : s.bufIdx < s.irBuf.length) :
    (recordSample red ir (readBattery raw s)).finger = decide (FINGER_THR < ir) ∧
    (recordSample red ir (readBattery raw s)).vitals.finger = decide (FINGER_THR < ir) := by
  have hrb : ((readBattery raw s).irBuf.set (readBattery raw s).bufIdx ir).getD
      (readBattery raw s).bufIdx 0 = ir := readback _ _ _ h
  constructor
  · show decide (((readBattery raw s).irBuf.set (readBattery raw s).bufIdx ir).getD
        (readBattery raw s).bufIdx 0 > FINGER_THR) = _
    rw [hrb]
  · show decide (((readBattery raw s).irBuf.set (readBattery raw s).bufIdx ir).getD
        (readBattery raw s).bufIdx 0 > FINGER_THR) = _
    rw [hrb]

/-- A call that does not complete the window: the cursor advances by one, the
buffers keep their size, heart rate and SpO2 are untouched. -/
theorem updSensors_midwindow (est : Estimator) (raw red ir : Nat) (s : State)
    (hlen : s.irBuf.length = BUF_SIZE) (hidx : s.bufIdx < 24) :
    (updSensors est raw (some (red, ir)) s).bufIdx = s.bufIdx + 1 ∧
    (updSensors est raw (some (red, ir)) s).irBuf.length = BUF_SIZE ∧
    (updSensors est raw (some (red, ir)) s).vitals.finger = decide (FINGER_THR < ir) ∧
    (updSensors est raw (some (red, ir)) s).finger = decide (FINGER_THR < ir) ∧
    (updSensors est raw (some (red, ir)) s).vitals.hr = s.vitals.hr ∧
    (updSensors est raw (some (red, ir)) s).vitals.spo2 = s.vitals.spo2 := by
  have hb : (recordSample red ir (readBattery raw s)).bufIdx = s.bufIdx + 1 := by
    show (s.bufIdx + 1) % 256 = s.bufIdx + 1
    omega
  have hnot : ¬ (recordSample red ir (readBattery raw s)).bufIdx ≥ BUF_SIZE := by
    rw [hb]; simp only [BUF_SIZE]; omega
  obtain ⟨f1, f2⟩ := recordSample_finger raw red ir s (by rw [hlen]; simp only [BUF_SIZE]; omega)
  rw [updSensors_sample, if_neg hnot]
  refine ⟨hb, ?_, f2, f1, rfl, rfl⟩
  show ((readBattery raw s).irBuf.set _ ir).length = BUF_SIZE
  rw [List.length_set]
  exact hlen

/-- The call that completes the window (cursor at 24): the cursor returns to 0
and the estimation pass runs on the state holding the 25 samples. -/
theorem updSensors_complete (est : Estimator) (raw red ir : Nat) (s : State)
    (hidx : s.bufIdx = 24) :
    updSensors est raw (some (red, ir)) s =
      emit [Event.nextSample]
        (estimatePass est (rewind (recordSample red ir (readBattery raw s)))) := by
  have hb : (recordSample red ir (readBattery raw s)).bufIdx = 25 := by
    show (s.bufIdx + 1) % 256 = 25
    rw [hidx]
  rw [updSensors_sample, if_pos (by rw [hb]; simp)]

theorem estimatePass_no_finger (est : Estimator) (s : State) (h : s.finger = false) :
    estimatePass est s = { s with vitals := { s.vitals with hr := 0, spo2 := 0 } } := by
  unfold estimatePass
  rw [h]
  rfl

/-- The estimation pass with a finger present: the estimator call is traced,
its four outputs are stored, and each vital sign is replaced only by a valid
in-range value. -/
theorem estimatePass_finger (est : Estimator) (s : State) (h : s.finger = true) :
    (estimatePass est s).vitals.hr =
      (if (est (u16view s.irBuf) s.bufLen (u16view s.redBuf)).validHr ≠ 0 ∧
          0 < (est (u16view s.irBuf) s.bufLen (u16view s.redBuf)).hr ∧
          (est (u16view s.irBuf) s.bufLen (u16view s.redBuf)).hr < 200
        then intToU8 (est (u16view s.irBuf) s.bufLen (u16view s.redBuf)).hr
        else s.vitals.hr) ∧
    (estimatePass est s).vitals.spo2 =
      (if (est (u16view s.irBuf) s.bufLen (u16view s.redBuf)).validSpo2 ≠ 0 ∧
          0 < (est (u16view s.irBuf) s.bufLen (u16view s.redBuf)).spo2 ∧
          (est (u16view s.irBuf) s.bufLen (u16view s.redBuf)).spo2 ≤ 100
        then intToU8 (est (u16view s.irBuf) s.bufLen (u16view s.redBuf)).spo2
        else s.vitals.spo2) ∧
    (estimatePass est s).out =
      s.out ++ [Event.estimate (u16view s.irBuf) s.bufLen (u16view s.redBuf)] := by
  unfold estimatePass
  rw [if_pos h]
  simp only [emit, gt_iff_lt]
  refine ⟨?_, ?_, ?_⟩
  · split <;> split <;> simp_all
  · split <;> split <;> simp_all
  · split <;> split <;> rfl

theorem intToU8_cast (x : Int) (h0 : 0 < x) (h1 : x < 256) : ((intToU8 x : Nat) : Int) = x := by
  unfold intToU8
  rw [Int.toNat_of_nonneg (Int.emod_nonneg x (by decide))]
  exact Int.emod_eq_of_lt (le_of_lt h0) h1

/-! ## C7: sticky last-good value -/

/-- C7.  When the 25th sample of a window is recorded with the finger present,
`vitals.hr` becomes the estimator heart rate if that is flagged valid and lies
strictly between 0 and 200 and otherwise keeps its prior value; `vitals.spo2`
becomes the estimator SpO2 if that is flagged valid and lies in `1..100` and
otherwise keeps its prior value.  An estimator heart rate of 205 leaves
`vitals.hr` unchanged. -/
theorem updSensors_sticky (est : Estimator) (raw red ir : Nat) (s : State)
    (hlen : s.irBuf.length = BUF_SIZE) (hidx : s.bufIdx = 24) (hir : FINGER_THR < ir) :
    ((est (u16view (s.irBuf.set s.bufIdx ir)) s.bufLen
          (u16view (s.redBuf.set s.bufIdx red))).validHr ≠ 0 ∧
        0 < (est (u16view (s.irBuf.set s.bufIdx ir)) s.bufLen
          (u16view (s.redBuf.set s.bufIdx red))).hr ∧
        (est (u16view (s.irBuf.set s.bufIdx ir)) s.bufLen
          (u16view (s.redBuf.set s.bufIdx red))).hr < 200 →
      (((updSensors est raw (some (red, ir)) s).vitals.hr : Nat) : Int) =
        (est (u16view (s.irBuf.set s.bufIdx ir)) s.bufLen
          (u16view (s.redBuf.set s.bufIdx red))).hr) ∧
    (¬ ((est (u16view (s.irBuf.set s.bufIdx ir)) s.bufLen
          (u16view (s.redBuf.set s.bufIdx red))).validHr ≠ 0 ∧
        0 < (est (u16view (s.irBuf.set s.bufIdx ir)) s.bufLen
          (u16view (s.redBuf.set s.bufIdx red))).hr ∧
        (est (u16view (s.irBuf.set s.bufIdx ir)) s.bufLen
          (u16view (s.redBuf.set s.bufIdx red))).hr < 200) →
      (updSensors est raw (some (red, ir)) s).vitals.hr = s.vitals.hr) ∧
    ((est (u16view (s.irBuf.set s.bufIdx ir)) s.bufLen
          (u16view (s.redBuf.set s.bufIdx red))).validSpo2 ≠ 0 ∧
        0 < (est (u16view (s.irBuf.set s.bufIdx ir)) s.bufLen
          (u16view (s.redBuf.set s.bufIdx red))).spo2 ∧
        (est (u16view (s.irBuf.set s.bufIdx ir)) s.bufLen
          (u16view (s.redBuf.set s.bufIdx red))).spo2 ≤ 100 →
      (((updSensors est raw (some (red, ir)) s).vitals.spo2 : Nat) : Int) =
        (est (u16view (s.irBuf.set s.bufIdx ir)) s.bufLen
          (u16view (s.redBuf.set s.bufIdx red))).spo2) ∧
    (¬ ((est (u16view (s.irBuf.set s.bufIdx ir)) s.bufLen
          (u16view (s.redBuf.set s.bufIdx red))).validSpo2 ≠ 0 ∧
        0 < (est (u16view (s.irBuf.set s.bufIdx ir)) s.bufLen
          (u16view (s.redBuf.set s.bufIdx red))).spo2 ∧
        (est (u16view (s.irBuf.set s.bufIdx ir)) s.bufLen
          (u16view (s.redBuf.set s.bufIdx red))).spo2 ≤ 100) →
      (updSensors est raw (some (red, ir)) s).vitals.spo2 = s.vitals.spo2) ∧
    ((est (u16view (s.irBuf.set s.bufIdx ir)) s.bufLen
          (u16view (s.redBuf.set s.bufIdx red))).hr = 205 →
      (updSensors est raw (some (red, ir)) s).vitals.hr = s.vitals.hr) := by
  obtain ⟨f1, -⟩ := recordSample_finger raw red ir s (by rw [hlen, hidx]; decide)
  have hf : (rewind (recordSample red ir (readBattery raw s))).finger = true := by
    show (recordSample red ir (readBattery raw s)).finger = true
    rw [f1]; exact decide_eq_true hir
  obtain ⟨e1, e2, -⟩ := estimatePass_finger est _ hf
  have g1 : (updSensors est raw (some (red, ir)) s).vitals.hr =
      (estimatePass est (rewind (recordSample red ir (readBattery raw s)))).vitals.hr := by
    rw [updSensors_complete est raw red ir s hidx]; rfl
  have g2 : (updSensors est raw (some (red, ir)) s).vitals.spo2 =
      (estimatePass est (rewind (recordSample red ir (readBattery raw s)))).vitals.spo2 := by
    rw [updSensors_complete est raw red ir s hidx]; rfl
  have i1 : (rewind (recordSample red ir (readBattery raw s))).irBuf
      = s.irBuf.set s.bufIdx ir := rfl
  have i2 : (rewind (recordSample red ir (readBattery raw s))).redBuf
      = s.redBuf.set s.bufIdx red := rfl
  have i3 : (rewind (recordSample red ir (readBattery raw s))).bufLen = s.bufLen := rfl
  have i4 : (rewind (recordSample red ir (readBattery raw s))).vitals.hr = s.vitals.hr := rfl
  have i5 : (rewind (recordSample red ir (readBattery raw s))).vitals.spo2
      = s.vitals.spo2 := rfl
  rw [i1, i2, i3, i4] at e1
  rw [i1, i2, i3, i5] at e2
  rw [g1, g2, e1, e2]
  refine ⟨?_, ?_, ?_, ?_, ?_⟩
  · intro h
    rw [if_pos h]
    exact intToU8_cast _ h.2.1 (by omega)
  · intro h
    rw [if_neg h]
  · intro h
    rw [if_pos h]
    exact intToU8_cast _ h.2.1 (by omega)
  · intro h
    rw [if_neg h]
  · intro h
    rw [if_neg (fun hc => by rw [h] at hc; exact absurd hc.2.2 (by decide))]

/-- C7 witness: prior `hr = 72`, `spo2 = 98`; the estimator reports a valid
205 and a valid 97 on the 25th sample. -/
theorem updSensors_sticky_witness :
    (updSensors est205 800 (some (60000, 60000)) { goodState with bufIdx := 24 }).vitals.hr = 72 ∧
    (((updSensors est205 800 (some (60000, 60000)) { goodState with bufIdx := 24 }).vitals.spo2
      : Nat) : Int) = 97 := by
  have h := updSensors_sticky est205 800 60000 60000 { goodState with bufIdx := 24 }
    (by decide) rfl (by decide)
  exact ⟨h.2.2.2.2 rfl, h.2.2.1 (by decide)⟩

/-! ## C8: no finger at window completion -/

/-- C8.  When the 25th sample of a window is recorded and its infrared value
is at most 50000, `vitals.hr` and `vitals.spo2` are set to 0 whatever they
were, the estimator is not called (the only external call is
`sensor.nextSample()`), and the estimator outputs `spo2`, `hr`, `validSpo2`,
`validHr` are untouched. -/
theorem updSensors_window_no_finger (est : Estimator) (raw red ir : Nat) (s : State)
    (hlen : s.irBuf.length = BUF_SIZE) (hidx : s.bufIdx = 24) (hir : ir ≤ FINGER_THR) :
    (updSensors est raw (some (red, ir)) s).vitals.hr = 0 ∧
    (updSensors est raw (some (red, ir)) s).vitals.spo2 = 0 ∧
    (updSensors est raw (some (red, ir)) s).vitals.finger = false ∧
    (updSensors est raw (some (red, ir)) s).spo2 = s.spo2 ∧
    (updSensors est raw (some (red, ir)) s).hr = s.hr ∧
    (updSensors est raw (some (red, ir)) s).validSpo2 = s.validSpo2 ∧
    (updSensors est raw (some (red, ir)) s).validHr = s.validHr ∧
    (updSensors est raw (some (red, ir)) s).out = s.out ++ [Event.nextSample] ∧
    (updSensors est raw (some (red, ir)) s).bufIdx = 0 := by
  obtain ⟨f1, f2⟩ := recordSample_finger raw red ir s (by rw [hlen, hidx]; decide)
  have hd : decide (FINGER_THR < ir) = false := decide_eq_false (Nat.not_lt.mpr hir)
  have hf : (rewind (recordSample red ir (readBattery raw s))).finger = false := by
    show (recordSample red ir (readBattery raw s)).finger = false
    rw [f1]; exact hd
  rw [updSensors_complete est raw red ir s hidx, estimatePass_no_finger est _ hf]
  refine ⟨rfl, rfl, ?_, rfl, rfl, rfl, rfl, rfl, rfl⟩
  show (recordSample red ir (readBattery raw s)).vitals.finger = false
  rw [f2]; exact hd

/-- C8 witness: prior `hr = 72`, `spo2 = 98`, 25th infrared sample 40000. -/
theorem updSensors_window_no_finger_witness :
    (updSensors est205 800 (some (41000, 40000)) { goodState with bufIdx := 24 }).vitals.hr = 0 ∧
    (updSensors est205 800 (some (41000, 40000)) { goodState with bufIdx := 24 }).vitals.spo2 = 0 ∧
    (updSensors est205 800 (some (41000, 40000)) { goodState with bufIdx := 24 }).out
      = [Event.nextSample] := by
  have h := updSensors_window_no_finger est205 800 41000 40000 { goodState with bufIdx := 24 }
    (by decide) rfl (by decide)
  exact ⟨h.1, h.2.1, h.2.2.2.2.2.2.2.1⟩

/-! ## C6: a window with a lifted finger -/

/-- The completing call with no finger on the sensor zeroes both vital signs
and publishes the cleared finger flag. -/
theorem updSensors_complete_reset (est : Estimator) (raw red ir : Nat) (s : State)
    (hlen : s.irBuf.length = BUF_SIZE) (hidx : s.bufIdx = 24) (hir : ir ≤ FINGER_THR) :
    (updSensors est raw (some (red, ir)) s).vitals.hr = 0 ∧
    (updSensors est raw (some (red, ir)) s).vitals.spo2 = 0 ∧
    (updSensors est raw (some (red, ir)) s).vitals.finger = false := by
  obtain ⟨f1, f2⟩ := recordSample_finger raw red ir s (by rw [hlen, hidx]; decide)
  have hd : decide (FINGER_THR < ir) = false := decide_eq_false (Nat.not_lt.mpr hir)
  have hf : (rewind (recordSample red ir (readBattery raw s))).finger = false :=
    f1.trans hd
  rw [updSensors_complete est raw red ir s hidx, estimatePass_no_finger est _ hf]
  exact ⟨rfl, rfl, f2.trans hd⟩

theorem feed_append (est : Estimator) (a b : List (Nat × Nat × Nat)) (s : State) :
    feed est (a ++ b) s = feed est b (feed est a s) := by
  unfold feed runSensors
  rw [List.map_append, List.foldl_append]

theorem feed_single (est : Estimator) (raw red ir : Nat) (s : State) :
    feed est [(raw, red, ir)] s = updSensors est raw (some (red, ir)) s := rfl

/-- Feeding fewer samples than it takes to complete the window only advances
the cursor. -/
theorem feed_midwindow (est : Estimator) (ins : List (Nat × Nat × Nat)) :
    ∀ s : State, s.irBuf.length = BUF_SIZE → s.bufIdx + ins.length ≤ 24 →
      (feed est ins s).bufIdx = s.bufIdx + ins.length ∧
      (feed est ins s).irBuf.length = BUF_SIZE := by
  induction ins with
  | nil => intro s hlen _; exact ⟨rfl, hlen⟩
  | cons x xs ih =>
    intro s hlen hle
    obtain ⟨raw, red, ir⟩ := x
    simp only [List.length_cons] at hle
    obtain ⟨p1, p2, -⟩ := updSensors_midwindow est raw red ir s hlen (by omega)
    have := ih (updSensors est raw (some (red, ir)) s) p2 (by rw [p1]; omega)
    show (feed est xs (updSensors est raw (some (red, ir)) s)).bufIdx = _ ∧ _
    rw [this.1, p1]
    exact ⟨by simp only [List.length_cons]; omega, this.2⟩

/-- C6 (as amended).  Over a window of 25 samples starting at cursor 0, every
sample whose infrared value is at most 50000 (in particular the first such)
sets the finger-present flag to false at the call that records it; when the
window completes, heart rate and SpO2 are reset to 0 provided the 25th sample
itself has an infrared value of at most 50000. -/
theorem window_finger_reset (est : Estimator) (s : State) (ins : List (Nat × Nat × Nat))
    (hlen : s.irBuf.length = BUF_SIZE) (hidx : s.bufIdx = 0) (hn : ins.length = BUF_SIZE) :
    (∀ k raw red ir, ins[k]? = some (raw, red, ir) → ir ≤ FINGER_THR →
      (feed est (ins.take (k + 1)) s).vitals.finger = false) ∧
    (∀ raw red ir, ins[24]? = some (raw, red, ir) → ir ≤ FINGER_THR →
      (feed est ins s).vitals.hr = 0 ∧ (feed est ins s).vitals.spo2 = 0) := by
  have hstep : ∀ k raw red ir, ins[k]? = some (raw, red, ir) →
      feed est (ins.take (k + 1)) s =
        updSensors est raw (some (red, ir)) (feed est (ins.take k) s) ∧
      (feed est (ins.take k) s).bufIdx = k ∧
      (feed est (ins.take k) s).irBuf.length = BUF_SIZE ∧ k < 25 := by
    intro k raw red ir hk
    have hk25 : k < 25 := by
      have := (List.getElem?_eq_some_iff.mp hk).1
      rw [hn] at this
      exact this
    have hl : (ins.take k).length = k := by
      rw [List.length_take, hn]
      simp only [BUF_SIZE]; omega
    obtain ⟨q1, q2⟩ := feed_midwindow est (ins.take k) s hlen (by rw [hidx, hl]; omega)
    refine ⟨?_, by rw [q1, hidx, hl]; omega, q2, hk25⟩
    rw [List.take_succ, hk, feed_append]
    rfl
  constructor
  · intro k raw red ir hk hir
    obtain ⟨e, hb, hl, hk25⟩ := hstep k raw red ir hk
    rw [e]
    by_cases h24 : k = 24
    · exact (updSensors_complete_reset est raw red ir _ hl (by rw [hb, h24]) hir).2.2
    · rw [(updSensors_midwindow est raw red ir _ hl (by rw [hb]; omega)).2.2.1]
      exact decide_eq_false (Nat.not_lt.mpr hir)
  · intro raw red ir hk hir
    obtain ⟨e, hb, hl, -⟩ := hstep 24 raw red ir hk
    have hfull : ins.take (24 + 1) = ins := List.take_of_length_le (by rw [hn]; decide)
    rw [hfull] at e
    rw [e]
    obtain ⟨r1, r2, -⟩ := updSensors_complete_reset est raw red ir _ hl hb hir
    exact ⟨r1, r2⟩

/-- C6 witness: 25 samples with no finger at all, after readings 72 and 98. -/
theorem window_finger_reset_witness :
    (feed est205 (List.replicate 25 (800, 0, 0)) goodState).vitals.hr = 0 ∧
    (feed est205 (List.replicate 25 (800, 0, 0)) goodState).vitals.spo2 = 0 ∧
    (feed est205 ((List.replicate 25 (800, 0, 0)).take 1) goodState).vitals.finger = false := by
  have h := window_finger_reset est205 goodState (List.replicate 25 (800, 0, 0))
    (by decide) rfl (by decide)
  obtain ⟨h1, h2⟩ := h.2 800 0 0 (by decide) (by decide)
  exact ⟨h1, h2, h.1 0 800 0 0 (by decide) (by decide)⟩

set_option maxRecDepth 100000 in
/-- C6 counterexample: the window `liftedFirst` has an infrared sample of 0 (its
first), the finger flag is false after that call, yet after the 25th sample
heart rate and SpO2 still hold their prior values 72 and 98 instead of 0. -/
theorem window_reset_fails_when_finger_returns :
    liftedFirst.length = 25 ∧ goodState.bufIdx = 0 ∧
    liftedFirst[0]? = some (800, 0, 0) ∧
    (feed estInvalid (liftedFirst.take 1) goodState).vitals.finger = false ∧
    (feed estInvalid liftedFirst goodState).vitals.hr = 72 ∧
    (feed estInvalid liftedFirst goodState).vitals.spo2 = 98 := by
  decide

/-! ## C9: the battery percentage -/

theorem estimatePass_bat (est : Estimator) (s : State) :
    (estimatePass est s).vitals.bat = s.vitals.bat := by
  unfold estimatePass
  simp only [emit]
  split
  · split <;> split <;> rfl
  · rfl

/-- The battery percentage stored by one call: the byte left by the
conversion on line 252, capped at 100 by line 253.  The lower clamp of line 253
never applies, the value tested being an unsigned byte. -/
theorem updSensors_bat (est : Estimator) (raw : Nat) (sample : Option (Nat × Nat))
    (s : State) :
    (updSensors est raw sample s).vitals.bat =
      if floatToU8 (batComputed raw) > 100 then 100 else floatToU8 (batComputed raw) := by
  have hb : (readBattery raw s).vitals.bat =
      if floatToU8 (batComputed raw) > 100 then 100 else floatToU8 (batComputed raw) := by
    show (if floatToU8 (batComputed raw) > 100 then 100
      else if floatToU8 (batComputed raw) < 0 then 0 else floatToU8 (batComputed raw)) = _
    rw [if_neg (Nat.not_lt_zero (floatToU8 (batComputed raw)))]
  cases sample with
  | none => exact hb
  | some p =>
    obtain ⟨red, ir⟩ := p
    rw [updSensors_sample]
    split
    · show (estimatePass est _).vitals.bat = _
      rw [estimatePass_bat]
      exact hb
    · exact hb

/-- C9 (the code at the failing input).  For a raw ADC reading of 0 the
computed value is -250; the byte stored on line 252 is 6, the test
`vitals.bat < 0` on line 253 cannot succeed, and the stored percentage is 6,
not 0.  For a raw reading of 600 the computed value is negative as well and the
stored percentage is 100. -/
theorem battery_negative_not_clamped (est : Estimator) (sample : Option (Nat × Nat))
    (s : State) :
    batComputed 0 = -250 ∧
    (updSensors est 0 sample s).vitals.bat = 6 ∧
    batComputed 600 < 0 ∧
    (updSensors est 600 sample s).vitals.bat = 100 := by
  have h0 : batComputed 0 = -250 := by unfold batComputed; norm_num
  have h600 : batComputed 600 = -5750 / 1023 := by unfold batComputed; norm_num
  have f0 : floatToU8 (batComputed 0) = 6 := by
    rw [h0]; rfl
  have f600 : floatToU8 (batComputed 600) = 251 := by
    have hn : ((-5750 / 1023 : ℚ)).num = -5750 := by norm_num
    have hd : ((-5750 / 1023 : ℚ)).den = 1023 := by norm_num
    rw [h600]
    unfold floatToU8
    rw [hn, hd]
    rfl
  refine ⟨h0, ?_, ?_, ?_⟩
  · rw [updSensors_bat, f0]; rfl
  · rw [h600]; norm_num
  · rw [updSensors_bat, f600]; rfl

/-! ## C10: the memory-pressure trim -/

/-- The log after the shift of line 399. -/
theorem memmove_log (l : List Alert) (n : Nat) (h : n ≤ l.length) :
    (memmove l 0 1 (n - 1)).take (n - 1) = (l.take n).drop 1 := by
  unfold memmove
  simp only [List.take_zero, List.nil_append, Nat.zero_add]
  rw [List.take_append_of_le_length (by simp; omega), List.take_take]
  simp [List.drop_take]

/-- C10 (as amended).  When the check is due (more than 30000 ms, by 32-bit
subtraction, since the previous check) and the free-memory estimate is below
100, a log with at least two entries `[e1, ..., en]` becomes `[e2, ..., en]`
with count `n - 1`, and a log with one entry or none is left as it is; when the
check is not due or memory is not low the log is unchanged. -/
theorem chkMem_trims (s : State) (mem : Int) :
    (30000 < sub32 (now s) s.lastCheck → mem < 100 → 2 ≤ s.alertLogCnt →
      s.alertLogCnt ≤ s.alertLog.length → s.alertLog.length = MAX_LOG →
      (chkMem mem s).log = s.log.drop 1 ∧
      (chkMem mem s).alertLogCnt = s.alertLogCnt - 1) ∧
    (30000 < sub32 (now s) s.lastCheck → mem < 100 → s.alertLogCnt ≤ 1 →
      (chkMem mem s).alertLog = s.alertLog ∧
      (chkMem mem s).alertLogCnt = s.alertLogCnt) ∧
    (¬ (30000 < sub32 (now s) s.lastCheck ∧ mem < 100) →
      (chkMem mem s).alertLog = s.alertLog ∧
      (chkMem mem s).alertLogCnt = s.alertLogCnt) := by
  refine ⟨?_, ?_, ?_⟩
  · intro hdue hmem h2 hle hlen
    have h256 : (s.alertLogCnt - 1) % 256 = s.alertLogCnt - 1 := by
      rw [hlen] at hle; simp only [MAX_LOG] at hle; omega
    have e : chkMem mem s =
        { ({ tick (tick s) with lastCheck := now (tick s) } : State) with
          alertLog := memmove s.alertLog 0 1 (s.alertLogCnt - 1)
          alertLogCnt := u8 (s.alertLogCnt - 1) } := by
      unfold chkMem
      simp only []
      rw [if_pos (show sub32 (now s) (tick s).lastCheck > 30000 from hdue), if_pos hmem,
        if_pos (show ({ tick (tick s) with lastCheck := now (tick s) } : State).alertLogCnt > 1
          from h2)]
      rfl
    rw [e]
    constructor
    · show (memmove s.alertLog 0 1 (s.alertLogCnt - 1)).take ((s.alertLogCnt - 1) % 256) = _
      rw [h256, memmove_log _ _ hle]
      rfl
    · exact h256
  · intro hdue hmem h1
    have e : chkMem mem s = { tick (tick s) with lastCheck := now (tick s) } := by
      unfold chkMem
      simp only []
      rw [if_pos (show sub32 (now s) (tick s).lastCheck > 30000 from hdue), if_pos hmem,
        if_neg (show ¬ ({ tick (tick s) with lastCheck := now (tick s) } : State).alertLogCnt
          > 1 from Nat.not_lt.mpr h1)]
    rw [e]
    exact ⟨rfl, rfl⟩
  · intro hnot
    unfold chkMem
    simp only []
    by_cases hdue : sub32 (now s) (tick s).lastCheck > 30000
    · have hmem : ¬ mem < 100 := fun hm => hnot ⟨hdue, hm⟩
      rw [if_pos hdue, if_neg hmem]
      exact ⟨rfl, rfl⟩
    · rw [if_neg hdue]
      exact ⟨rfl, rfl⟩

/-- C10 witness: the full log `[A, B, C]` is trimmed to `[B, C]`; the
one-entry log `[A]` is kept; with enough memory nothing changes. -/
theorem chkMem_trims_witness :
    ((chkMem 50 { fullState with lastCheck := 5000 }).log = [alertB, alertC] ∧
      (chkMem 50 { fullState with lastCheck := 5000 }).alertLogCnt = 2) ∧
    (chkMem 50 singleLogState).alertLogCnt = 1 ∧
    (chkMem 500 fullState).alertLogCnt = 3 := by
  have h := chkMem_trims { fullState with lastCheck := 5000 } 50
  have g := chkMem_trims singleLogState 50
  have k := chkMem_trims fullState 500
  refine ⟨?_, (g.2.1 (by decide) (by decide) (by decide)).2, (k.2.2 (by decide)).2⟩
  obtain ⟨h1, h2⟩ := h.1 (by decide) (by decide) (by decide) (by decide) (by decide)
  exact ⟨h1.trans (by decide), h2⟩

/-- C10 counterexample: the check is due (40000 ms since the last one), the
free-memory estimate 50 is below 100, the log holds the single entry `A`, and
after `chkMem` the log still holds `A` with count 1 rather than being empty.
Likewise, exactly 30000 ms after the previous check the full log `[A, B, C]`
is not trimmed. -/
theorem chkMem_keeps_last_entry :
    30000 < sub32 (now singleLogState) singleLogState.lastCheck ∧ (50 : Int) < 100 ∧
    singleLogState.log = [alertA] ∧
    (chkMem 50 singleLogState).log = [alertA] ∧
    (chkMem 50 singleLogState).alertLogCnt = 1 ∧
    sub32 (now { fullState with lastCheck := 10000 }) 10000 = 30000 ∧
    (chkMem 50 { fullState with lastCheck := 10000 }).log = [alertA, alertB, alertC] := by
  decide

/-! ## C11: lifetime of the alert banner -/

/-- C11 (the code at the failing input).  Two alerts are raised 6000 ms apart
(clock `stepClock`).  The first call of `showAlert` leaves its banner on the
strip.  The second call draws its banner and, within the same call, paints the
strip black: on return the strip does not show the message.  No display
update ever paints the strip black, so a banner that survives its own call is
not cleared 5000 ms later either. -/
theorem banner_erased_by_its_own_call (s : State) :
    (trigAlert ALERT_CRIT ['H', 'R', ':', '4', '0'] (initState stepClock)).out =
      playAlertEvents ALERT_CRIT ++ bannerDraw ['H', 'R', ':', '4', '0'] ALERT_CRIT ∧
    (trigAlert ALERT_CRIT ['H', 'R', ':', '4', '0'] (initState stepClock)).alertTime
      = some 6000 ∧
    now (trigAlert ALERT_CRIT ['H', 'R', ':', '4', '0'] (initState stepClock)) = 12000 ∧
    (trigAlert ALERT_WARN ['B', 'a', 't', ':', '9']
        (trigAlert ALERT_CRIT ['H', 'R', ':', '4', '0'] (initState stepClock))).out =
      (trigAlert ALERT_CRIT ['H', 'R', ':', '4', '0'] (initState stepClock)).out ++
        playAlertEvents ALERT_WARN ++ bannerDraw ['B', 'a', 't', ':', '9'] ALERT_WARN ++
        [Event.fillRect 0 20 240 10 Color.black] ∧
    (showAlert ['B', 'a', 't', ':', '9'] ALERT_WARN
        { initState (constClock 12000) with alertTime := some 6000 }).out.getLast?
      = some (Event.fillRect 0 20 240 10 Color.black) ∧
    Event.fillRect 0 20 240 10 Color.black ∉ (updDisp s).out.drop s.out.length := by
  refine ⟨by decide, by decide, by decide, by decide, by decide, ?_⟩
  unfold updDisp
  split
  · simp [updVitals, emit, updVitalsEvents]
  · simp

/-! ## C12: what the estimator is given -/

/-- Every element the estimator can read is a 16-bit half of a stored sample. -/
theorem u16view_lt (buf : List Nat) : ∀ x ∈ u16view buf, x < 65536 := by
  intro x hx
  unfold u16view at hx
  rw [List.mem_flatMap] at hx
  obtain ⟨w, -, hw⟩ := hx
  simp only [List.mem_cons, List.mem_singleton, List.not_mem_nil, or_false] at hw
  rcases hw with h | h <;> rw [h] <;> exact Nat.mod_lt _ (by decide)

/-- C12 (the code at the failing input).  The window `windowState` holds 24
infrared samples of 60000 and receives a 25th; the estimator is called with
length 25 on the 16-bit view of the 32-bit buffers, whose elements are
`60000, 0, 60000, 0, ...`: element 1 is 0 while the sample stored at index 1
is 60000, and the first 25 elements cover only the first 13 samples.  Every
element of such a view is below 65536, so a sample of 100000 is seen as 34464. -/
theorem estimator_reads_half_words :
    (updSensors est205 800 (some (55000, 60000)) windowState).irBuf
      = List.replicate 25 60000 ∧
    (updSensors est205 800 (some (55000, 60000)) windowState).out =
      [Event.estimate (u16view (List.replicate 25 60000)) 25
         (u16view (List.replicate 25 55000)), Event.nextSample] ∧
    (u16view (List.replicate 25 60000))[1]? = some 0 ∧
    (List.replicate 25 60000)[1]? = some 60000 ∧
    (u16view (List.replicate 25 60000)).take 25 =
      (List.replicate 12 [60000, 0]).flatten ++ [60000] ∧
    (u16view (List.replicate 25 60000)).take 25 ≠ List.replicate 25 60000 ∧
    (u16view [100000])[0]? = some 34464 ∧
    (∀ buf : List Nat, (u16view buf).all (fun x => decide (x < 65536)) = true) := by
  refine ⟨by decide, by decide, by decide, by decide, by decide, by decide, by decide, ?_⟩
  intro buf
  rw [List.all_eq_true]
  intro x hx
  exact decide_eq_true (u16view_lt buf x hx)

/-! ## C14: the buzzer pattern -/

/-- C14.  `playAlert` emits the pulse train of the specification with
`(n, d) = (3, 100)` for Critical, `(2, 200)` for Warning and `(1, 200)` for
Info (and for any other level value); the last call switches the buzzer off,
and the time spent in `delay` is `n * d + (n - 1) * 100`, at most 600 ms. -/
theorem playAlert_pulse_train (lvl : Nat) (s : State) :
    (playAlert lvl s).out = s.out ++ playAlertEvents lvl ∧
    playAlertEvents ALERT_CRIT = pulseTrain 3 100 ∧
    playAlertEvents ALERT_WARN = pulseTrain 2 200 ∧
    playAlertEvents ALERT_INFO = pulseTrain 1 200 ∧
    playAlertEvents lvl =
      pulseTrain (if lvl = ALERT_CRIT then 3 else if lvl = ALERT_WARN then 2 else 1)
        (if lvl = ALERT_CRIT then 100 else 200) ∧
    (playAlertEvents lvl).getLast? = some (Event.digitalWrite BUZZER_PIN false) ∧
    blockingTime (pulseTrain 3 100) = 3 * 100 + (3 - 1) * 100 ∧
    blockingTime (pulseTrain 2 200) = 2 * 200 + (2 - 1) * 100 ∧
    blockingTime (pulseTrain 1 200) = 1 * 200 + (1 - 1) * 100 ∧
    blockingTime (playAlertEvents lvl) ≤ 600 := by
  have hgen : playAlertEvents lvl =
      pulseTrain (if lvl = ALERT_CRIT then 3 else if lvl = ALERT_WARN then 2 else 1)
        (if lvl = ALERT_CRIT then 100 else 200) := by
    by_cases h2 : lvl = ALERT_CRIT
    · rw [if_pos h2, if_pos h2, h2]; decide
    · by_cases h1 : lvl = ALERT_WARN
      · rw [if_neg h2, if_neg h2, if_pos h1, h1]; decide
      · rw [if_neg h2, if_neg h2, if_neg h1]
        unfold playAlertEvents
        rw [if_neg h2, if_neg h2, if_neg h1]
        decide
  refine ⟨rfl, by decide, by decide, by decide, hgen, ?_, by decide, by decide, by decide, ?_⟩
  · rw [hgen]
    by_cases h2 : lvl = ALERT_CRIT
    · rw [if_pos h2, if_pos h2]; decide
    · by_cases h1 : lvl = ALERT_WARN
      · rw [if_neg h2, if_neg h2, if_pos h1]; decide
      · rw [if_neg h2, if_neg h2, if_neg h1]; decide
  · rw [hgen]
    by_cases h2 : lvl = ALERT_CRIT
    · rw [if_pos h2, if_pos h2]; decide
    · by_cases h1 : lvl = ALERT_WARN
      · rw [if_neg h2, if_neg h2, if_pos h1]; decide
      · rw [if_neg h2, if_neg h2, if_neg h1]; decide

/-! ## C15: the SpO2 check -/

/-- Lines 299-305 as a single conditional. -/
theorem chkSpo2_eq (s : State) :
    chkSpo2 s =
      if s.vitals.finger = true ∧ 0 < s.vitals.spo2 ∧ s.vitals.spo2 < 95 then
        trigAlert (if s.vitals.spo2 < 90 then ALERT_CRIT else ALERT_WARN)
          (snprintf MAX_STR (['S', 'p', 'O', '2', ':'] ++ fmtD s.vitals.spo2)) s
      else s := by
  unfold chkSpo2
  by_cases h1 : s.vitals.finger = true ∧ s.vitals.spo2 > 0
  · by_cases h2 : s.vitals.spo2 < 95
    · rw [if_pos h1, if_pos (show s.vitals.finger = true ∧ 0 < s.vitals.spo2 ∧
        s.vitals.spo2 < 95 from ⟨h1.1, h1.2, h2⟩)]
      exact if_pos h2
    · rw [if_pos h1, if_neg (show ¬ (s.vitals.finger = true ∧ 0 < s.vitals.spo2 ∧
        s.vitals.spo2 < 95) from fun h => h2 h.2.2)]
      exact if_neg h2
  · rw [if_neg h1, if_neg (show ¬ (s.vitals.finger = true ∧ 0 < s.vitals.spo2 ∧
      s.vitals.spo2 < 95) from fun h => h1 ⟨h.1, h.2.1⟩)]

/-- C15.  With the cooldown elapsed, `spo2` in `0..100` and no heart-rate
violation (so that the heart-rate block raises nothing and leaves the state
alone), the SpO2 block of `chkAlerts` raises the alert `SpO2:<spo2>` if and
only if the finger flag is set and `0 < spo2 < 95`; the level of the raised
alert is Critical when `spo2 < 90` and Warning otherwise. -/
theorem chkSpo2_raises_iff (s : State) (hsp : s.vitals.spo2 ≤ 100)
    (hlen : s.alertLog.length = MAX_LOG) (hcnt : s.alertLogCnt ≤ MAX_LOG)
    (hc : cooldownElapsed s)
    (hno : ¬ (s.vitals.finger = true ∧ 0 < s.vitals.hr ∧
      (s.vitals.hr < 60 ∨ 100 < s.vitals.hr))) :
    chkAlerts s = rmAlerts (chkBat (chkSpo2 (chkHr s))) ∧
    chkHr s = s ∧
    ((∃ lvl, raised s (chkSpo2 (chkHr s)) lvl
        (['S', 'p', 'O', '2', ':'] ++ fmtD s.vitals.spo2)) ↔
      (s.vitals.finger = true ∧ 0 < s.vitals.spo2 ∧ s.vitals.spo2 < 95)) ∧
    ∀ lvl, raised s (chkSpo2 (chkHr s)) lvl
        (['S', 'p', 'O', '2', ':'] ++ fmtD s.vitals.spo2) →
      (lvl = ALERT_CRIT ↔ s.vitals.spo2 < 90) ∧
      (lvl = ALERT_WARN ↔ ¬ s.vitals.spo2 < 90) := by
  obtain ⟨hm1, hm2⟩ := short_msg_fits ['S', 'p', 'O', '2', ':'] s.vitals.spo2
    (by simp) (by omega)
  have hhr : chkHr s = s := by rw [chkHr_eq, if_neg hno]
  refine ⟨rfl, hhr, ?_, ?_⟩ <;> rw [hhr]
  · constructor
    · rintro ⟨lvl, hr⟩
      by_contra hcond
      rw [chkSpo2_eq, if_neg hcond] at hr
      exact not_raised_self s lvl _ hr
    · intro hcond
      refine ⟨if s.vitals.spo2 < 90 then ALERT_CRIT else ALERT_WARN, ?_⟩
      rw [chkSpo2_eq, if_pos hcond, hm1]
      exact trigAlert_raised _ _ s hlen hcnt hc hm2
  · intro lvl hr
    by_cases hcond : s.vitals.finger = true ∧ 0 < s.vitals.spo2 ∧ s.vitals.spo2 < 95
    · have hr2 : raised s (chkSpo2 s)
          (if s.vitals.spo2 < 90 then ALERT_CRIT else ALERT_WARN)
          (['S', 'p', 'O', '2', ':'] ++ fmtD s.vitals.spo2) := by
        rw [chkSpo2_eq, if_pos hcond, hm1]
        exact trigAlert_raised _ _ s hlen hcnt hc hm2
      have hl := raised_level_unique _ _ _ _ _ _ hr hr2
      subst hl
      by_cases hcrit : s.vitals.spo2 < 90
      · simp [hcrit]
      · simp [hcrit]
    · rw [chkSpo2_eq, if_neg hcond] at hr
      exact absurd hr (not_raised_self s lvl _)

/-- C15 witness: SpO2 of 93 with a normal heart rate of 72, clock at 6000 ms. -/
theorem chkSpo2_raises_iff_witness :
    raised { initState (constClock 6000) with vitals := ⟨72, 93, 50, true, 0⟩ }
      (chkSpo2 (chkHr { initState (constClock 6000) with vitals := ⟨72, 93, 50, true, 0⟩ }))
      ALERT_WARN ['S', 'p', 'O', '2', ':', '9', '3'] := by
  have h := chkSpo2_raises_iff
    { initState (constClock 6000) with vitals := ⟨72, 93, 50, true, 0⟩ }
    (by decide) (by decide) (by decide) (by decide) (by decide)
  obtain ⟨lvl, hl⟩ := h.2.2.1.mpr (by decide)
  have hc := ((h.2.2.2 lvl hl).2).mpr (by decide)
  subst hc
  exact hl

/-! ## C16: the battery check -/

/-- Lines 306-310 with the arguments of the call spelled out. -/
theorem chkBat_eq (s : State) :
    chkBat s =
      if s.vitals.bat < 20 then
        trigAlert (if s.vitals.bat < 10 then ALERT_CRIT else ALERT_WARN)
          (snprintf MAX_STR (['B', 'a', 't', ':'] ++ fmtD s.vitals.bat)) s
      else s := rfl

/-- The sweep changes neither the alert log nor the trace. -/
theorem raised_rmAlerts (s s' : State) (lvl : Nat) (msg : List Char) :
    raised s (rmAlerts s') lvl msg ↔ raised s s' lvl msg := Iff.rfl

/-- C16.  With the cooldown elapsed, `bat` in `0..100` and neither a
heart-rate nor an SpO2 violation (so that the two earlier blocks raise nothing),
`chkAlerts` raises the alert `Bat:<bat>` if and only if `bat < 20`, whatever
the finger flag; the level of the raised alert is Critical when `bat < 10` and
Warning otherwise. -/
theorem chkBat_raises_iff (s : State) (hb : s.vitals.bat ≤ 100)
    (hlen : s.alertLog.length = MAX_LOG) (hcnt : s.alertLogCnt ≤ MAX_LOG)
    (hc : cooldownElapsed s)
    (hno : ¬ (s.vitals.finger = true ∧ 0 < s.vitals.hr ∧
      (s.vitals.hr < 60 ∨ 100 < s.vitals.hr)))
    (hno2 : ¬ (s.vitals.finger = true ∧ 0 < s.vitals.spo2 ∧ s.vitals.spo2 < 95)) :
    chkAlerts s = rmAlerts (chkBat s) ∧
    ((∃ lvl, raised s (chkAlerts s) lvl (['B', 'a', 't', ':'] ++ fmtD s.vitals.bat)) ↔
      s.vitals.bat < 20) ∧
    ∀ lvl, raised s (chkAlerts s) lvl (['B', 'a', 't', ':'] ++ fmtD s.vitals.bat) →
      (lvl = ALERT_CRIT ↔ s.vitals.bat < 10) ∧
      (lvl = ALERT_WARN ↔ ¬ s.vitals.bat < 10) := by
  obtain ⟨hm1, hm2⟩ := short_msg_fits ['B', 'a', 't', ':'] s.vitals.bat
    (by simp) (by omega)
  have hhr : chkHr s = s := by rw [chkHr_eq, if_neg hno]
  have hsp : chkSpo2 s = s := by rw [chkSpo2_eq, if_neg hno2]
  have hall : chkAlerts s = rmAlerts (chkBat s) := by
    unfold chkAlerts
    rw [hhr, hsp]
  refine ⟨hall, ?_, ?_⟩ <;> rw [hall] <;> simp only [raised_rmAlerts]
  · constructor
    · rintro ⟨lvl, hr⟩
      by_contra hcond
      rw [chkBat_eq, if_neg hcond] at hr
      exact not_raised_self s lvl _ hr
    · intro hcond
      refine ⟨if s.vitals.bat < 10 then ALERT_CRIT else ALERT_WARN, ?_⟩
      rw [chkBat_eq, if_pos hcond, hm1]
      exact trigAlert_raised _ _ s hlen hcnt hc hm2
  · intro lvl hr
    by_cases hcond : s.vitals.bat < 20
    · have hr2 : raised s (chkBat s)
          (if s.vitals.bat < 10 then ALERT_CRIT else ALERT_WARN)
          (['B', 'a', 't', ':'] ++ fmtD s.vitals.bat) := by
        rw [chkBat_eq, if_pos hcond, hm1]
        exact trigAlert_raised _ _ s hlen hcnt hc hm2
      have hl := raised_level_unique _ _ _ _ _ _ hr hr2
      subst hl
      by_cases hcrit : s.vitals.bat < 10
      · simp [hcrit]
      · simp [hcrit]
    · rw [chkBat_eq, if_neg hcond] at hr
      exact absurd hr (not_raised_self s lvl _)

/-- C16 witness: battery at 5 % with no finger on the sensor, clock at 6000 ms. -/
theorem chkBat_raises_iff_witness :
    raised { initState (constClock 6000) with vitals := ⟨0, 0, 5, false, 0⟩ }
      (chkAlerts { initState (constClock 6000) with vitals := ⟨0, 0, 5, false, 0⟩ })
      ALERT_CRIT ['B', 'a', 't', ':', '5'] := by
  have h := chkBat_raises_iff
    { initState (constClock 6000) with vitals := ⟨0, 0, 5, false, 0⟩ }
    (by decide) (by decide) (by decide) (by decide) (by decide) (by decide)
  obtain ⟨lvl, hl⟩ := h.2.1.mpr (by decide)
  have hc := ((h.2.2 lvl hl).1).mpr (by decide)
  subst hc
  exact hl

/-! ## Frame lemmas for the scheduler, the sensors and the display -/

@[simp] theorem tick_sched (s : State) :
    (tick s).lastSensor = s.lastSensor ∧
    (tick s).lastDisp = s.lastDisp ∧
    (tick s).lastAlert = s.lastAlert ∧
    (tick s).screen = s.screen := ⟨rfl, rfl, rfl, rfl⟩

@[simp] theorem emit_sched (evs : List Event) (s : State) :
    (emit evs s).lastSensor = s.lastSensor ∧
    (emit evs s).lastDisp = s.lastDisp ∧
    (emit evs s).lastAlert = s.lastAlert ∧
    (emit evs s).screen = s.screen := ⟨rfl, rfl, rfl, rfl⟩

@[simp] theorem stampAlert_sched (s : State) :
    (stampAlert s).lastSensor = s.lastSensor ∧
    (stampAlert s).lastDisp = s.lastDisp ∧
    (stampAlert s).lastAlert = s.lastAlert ∧
    (stampAlert s).screen = s.screen := ⟨rfl, rfl, rfl, rfl⟩

@[simp] theorem playAlert_sched (lvl : Nat) (s : State) :
    (playAlert lvl s).lastSensor = s.lastSensor ∧
    (playAlert lvl s).lastDisp = s.lastDisp ∧
    (playAlert lvl s).lastAlert = s.lastAlert ∧
    (playAlert lvl s).screen = s.screen := ⟨rfl, rfl, rfl, rfl⟩

@[simp] theorem pushActive_sched (lvl : Nat) (msg : List Char) (s : State) :
    (pushActive lvl msg s).lastSensor = s.lastSensor ∧
    (pushActive lvl msg s).lastDisp = s.lastDisp ∧
    (pushActive lvl msg s).lastAlert = s.lastAlert ∧
    (pushActive lvl msg s).screen = s.screen := by
  unfold pushActive; split <;> exact ⟨rfl, rfl, rfl, rfl⟩

@[simp] theorem pushLog_sched (lvl : Nat) (msg : List Char) (s : State) :
    (pushLog lvl msg s).lastSensor = s.lastSensor ∧
    (pushLog lvl msg s).lastDisp = s.lastDisp ∧
    (pushLog lvl msg s).lastAlert = s.lastAlert ∧
    (pushLog lvl msg s).screen = s.screen := by
  unfold pushLog; split <;> exact ⟨rfl, rfl, rfl, rfl⟩

@[simp] theorem showAlert_sched (msg : List Char) (lvl : Nat) (s : State) :
    (showAlert msg lvl s).lastSensor = s.lastSensor ∧
    (showAlert msg lvl s).lastDisp = s.lastDisp ∧
    (showAlert msg lvl s).lastAlert = s.lastAlert ∧
    (showAlert msg lvl s).screen = s.screen := by
  unfold showAlert
  cases h : s.alertTime <;> simp only [emit, tick, h] <;> split <;> exact ⟨rfl, rfl, rfl, rfl⟩

@[simp] theorem trigAlert_frame (lvl : Nat) (msg : List Char) (s : State) :
    (trigAlert lvl msg s).vitals = s.vitals ∧
    (trigAlert lvl msg s).lastSensor = s.lastSensor ∧
    (trigAlert lvl msg s).lastDisp = s.lastDisp ∧
    (trigAlert lvl msg s).lastAlert = s.lastAlert ∧
    (trigAlert lvl msg s).screen = s.screen ∧
    (trigAlert lvl msg s).clock = s.clock ∧
    (trigAlert lvl msg s).lastCheck = s.lastCheck := by
  unfold trigAlert; split <;> simp

@[simp] theorem chkHr_frame (s : State) :
    (chkHr s).vitals = s.vitals ∧
    (chkHr s).lastSensor = s.lastSensor ∧
    (chkHr s).lastDisp = s.lastDisp ∧
    (chkHr s).lastAlert = s.lastAlert ∧
    (chkHr s).screen = s.screen ∧
    (chkHr s).clock = s.clock ∧
    (chkHr s).lastCheck = s.lastCheck := by
  unfold chkHr; (repeat' split) <;> simp

@[simp] theorem chkSpo2_frame (s : State) :
    (chkSpo2 s).vitals = s.vitals ∧
    (chkSpo2 s).lastSensor = s.lastSensor ∧
    (chkSpo2 s).lastDisp = s.lastDisp ∧
    (chkSpo2 s).lastAlert = s.lastAlert ∧
    (chkSpo2 s).screen = s.screen ∧
    (chkSpo2 s).clock = s.clock ∧
    (chkSpo2 s).lastCheck = s.lastCheck := by
  unfold chkSpo2; (repeat' split) <;> simp

@[simp] theorem chkBat_frame (s : State) :
    (chkBat s).vitals = s.vitals ∧
    (chkBat s).lastSensor = s.lastSensor ∧
    (chkBat s).lastDisp = s.lastDisp ∧
    (chkBat s).lastAlert = s.lastAlert ∧
    (chkBat s).screen = s.screen ∧
    (chkBat s).clock = s.clock ∧
    (chkBat s).lastCheck = s.lastCheck := by
  unfold chkBat; (repeat' split) <;> simp

@[simp] theorem rmAlerts_frame (s : State) :
    (rmAlerts s).vitals = s.vitals ∧
    (rmAlerts s).lastSensor = s.lastSensor ∧
    (rmAlerts s).lastDisp = s.lastDisp ∧
    (rmAlerts s).lastAlert = s.lastAlert ∧
    (rmAlerts s).screen = s.screen ∧
    (rmAlerts s).clock = s.clock ∧
    (rmAlerts s).lastCheck = s.lastCheck ∧
    (rmAlerts s).lastAlertTime = s.lastAlertTime ∧
    (rmAlerts s).alertLog = s.alertLog ∧
    (rmAlerts s).alertLogCnt = s.alertLogCnt ∧
    (rmAlerts s).out = s.out ∧
    (rmAlerts s).alertTime = s.alertTime ∧
    (rmAlerts s).reads = s.reads + 1 := ⟨rfl, rfl, rfl, rfl, rfl, rfl, rfl, rfl, rfl, rfl, rfl, rfl, rfl⟩

@[simp] theorem chkAlerts_frame (s : State) :
    (chkAlerts s).vitals = s.vitals ∧
    (chkAlerts s).lastSensor = s.lastSensor ∧
    (chkAlerts s).lastDisp = s.lastDisp ∧
    (chkAlerts s).lastAlert = s.lastAlert ∧
    (chkAlerts s).screen = s.screen ∧
    (chkAlerts s).clock = s.clock := by
  unfold chkAlerts; simp

@[simp] theorem chkMem_frame (mem : Int) (s : State) :
    (chkMem mem s).vitals = s.vitals ∧
    (chkMem mem s).lastSensor = s.lastSensor ∧
    (chkMem mem s).lastDisp = s.lastDisp ∧
    (chkMem mem s).lastAlert = s.lastAlert ∧
    (chkMem mem s).screen = s.screen ∧
    (chkMem mem s).clock = s.clock ∧
    (chkMem mem s).lastAlertTime = s.lastAlertTime ∧
    (chkMem mem s).alerts = s.alerts ∧
    (chkMem mem s).alertCnt = s.alertCnt ∧
    (chkMem mem s).out = s.out ∧
    (chkMem mem s).alertTime = s.alertTime := by
  unfold chkMem; simp only []; (repeat' split) <;> exact ⟨rfl, rfl, rfl, rfl, rfl, rfl, rfl, rfl, rfl, rfl, rfl⟩

@[simp] theorem readBattery_frame (raw : Nat) (s : State) :
    (readBattery raw s).lastSensor = s.lastSensor ∧
    (readBattery raw s).lastDisp = s.lastDisp ∧
    (readBattery raw s).lastAlert = s.lastAlert ∧
    (readBattery raw s).screen = s.screen ∧
    (readBattery raw s).clock = s.clock ∧
    (readBattery raw s).lastAlertTime = s.lastAlertTime ∧
    (readBattery raw s).alertCnt = s.alertCnt ∧
    (readBattery raw s).alertLogCnt = s.alertLogCnt ∧
    (readBattery raw s).alerts = s.alerts ∧
    (readBattery raw s).alertLog = s.alertLog ∧
    (readBattery raw s).alertTime = s.alertTime ∧
    (readBattery raw s).lastCheck = s.lastCheck ∧
    (readBattery raw s).out = s.out ∧
    (readBattery raw s).bufIdx = s.bufIdx ∧
    (readBattery raw s).irBuf = s.irBuf ∧
    (readBattery raw s).redBuf = s.redBuf ∧
    (readBattery raw s).finger = s.finger ∧
    (readBattery raw s).reads = s.reads + 1 := ⟨rfl, rfl, rfl, rfl, rfl, rfl, rfl, rfl, rfl, rfl, rfl, rfl, rfl, rfl, rfl, rfl, rfl, rfl⟩

@[simp] theorem recordSample_frame (red ir : Nat) (s : State) :
    (recordSample red ir s).lastSensor = s.lastSensor ∧
    (recordSample red ir s).lastDisp = s.lastDisp ∧
    (recordSample red ir s).lastAlert = s.lastAlert ∧
    (recordSample red ir s).screen = s.screen ∧
    (recordSample red ir s).clock = s.clock ∧
    (recordSample red ir s).lastAlertTime = s.lastAlertTime ∧
    (recordSample red ir s).alertCnt = s.alertCnt ∧
    (recordSample red ir s).alertLogCnt = s.alertLogCnt ∧
    (recordSample red ir s).alerts = s.alerts ∧
    (recordSample red ir s).alertLog = s.alertLog ∧
    (recordSample red ir s).alertTime = s.alertTime ∧
    (recordSample red ir s).lastCheck = s.lastCheck ∧
    (recordSample red ir s).out = s.out ∧
    (recordSample red ir s).reads = s.reads := ⟨rfl, rfl, rfl, rfl, rfl, rfl, rfl, rfl, rfl, rfl, rfl, rfl, rfl, rfl⟩

@[simp] theorem rewind_frame (s : State) :
    (rewind s).lastSensor = s.lastSensor ∧
    (rewind s).lastDisp = s.lastDisp ∧
    (rewind s).lastAlert = s.lastAlert ∧
    (rewind s).screen = s.screen ∧
    (rewind s).clock = s.clock ∧
    (rewind s).lastAlertTime = s.lastAlertTime ∧
    (rewind s).alertCnt = s.alertCnt ∧
    (rewind s).alertLogCnt = s.alertLogCnt ∧
    (rewind s).alerts = s.alerts ∧
    (rewind s).alertLog = s.alertLog ∧
    (rewind s).alertTime = s.alertTime ∧
    (rewind s).lastCheck = s.lastCheck ∧
    (rewind s).out = s.out ∧
    (rewind s).reads = s.reads ∧
    (rewind s).irBuf = s.irBuf ∧
    (rewind s).redBuf = s.redBuf ∧
    (rewind s).finger = s.finger ∧
    (rewind s).vitals = s.vitals := ⟨rfl, rfl, rfl, rfl, rfl, rfl, rfl, rfl, rfl, rfl, rfl, rfl, rfl, rfl, rfl, rfl, rfl, rfl⟩

@[simp] theorem estimatePass_frame (est : Estimator) (s : State) :
    (estimatePass est s).lastSensor = s.lastSensor ∧
    (estimatePass est s).lastDisp = s.lastDisp ∧
    (estimatePass est s).lastAlert = s.lastAlert ∧
    (estimatePass est s).screen = s.screen ∧
    (estimatePass est s).clock = s.clock ∧
    (estimatePass est s).lastAlertTime = s.lastAlertTime ∧
    (estimatePass est s).alertCnt = s.alertCnt ∧
    (estimatePass est s).alertLogCnt = s.alertLogCnt ∧
    (estimatePass est s).alerts = s.alerts ∧
    (estimatePass est s).alertLog = s.alertLog ∧
    (estimatePass est s).alertTime = s.alertTime ∧
    (estimatePass est s).lastCheck = s.lastCheck ∧
    (estimatePass est s).reads = s.reads ∧
    (estimatePass est s).bufIdx = s.bufIdx ∧
    (estimatePass est s).irBuf = s.irBuf ∧
    (estimatePass est s).redBuf = s.redBuf := by
  unfold estimatePass; simp only [emit]; (repeat' split) <;> exact ⟨rfl, rfl, rfl, rfl, rfl, rfl, rfl, rfl, rfl, rfl, rfl, rfl, rfl, rfl, rfl, rfl⟩

@[simp] theorem updSensors_frame (est : Estimator) (raw : Nat) (sample : Option (Nat × Nat)) (s : State) :
    (updSensors est raw sample s).lastSensor = s.lastSensor ∧
    (updSensors est raw sample s).lastDisp = s.lastDisp ∧
    (updSensors est raw sample s).lastAlert = s.lastAlert ∧
    (updSensors est raw sample s).screen = s.screen ∧
    (updSensors est raw sample s).clock = s.clock ∧
    (updSensors est raw sample s).lastAlertTime = s.lastAlertTime ∧
    (updSensors est raw sample s).alertCnt = s.alertCnt ∧
    (updSensors est raw sample s).alertLogCnt = s.alertLogCnt ∧
    (updSensors est raw sample s).alerts = s.alerts ∧
    (updSensors est raw sample s).alertLog = s.alertLog ∧
    (updSensors est raw sample s).alertTime = s.alertTime ∧
    (updSensors est raw sample s).lastCheck = s.lastCheck ∧
    (updSensors est raw sample s).reads = s.reads + 1 := by
  cases sample with
  | none => exact ⟨rfl, rfl, rfl, rfl, rfl, rfl, rfl, rfl, rfl, rfl, rfl, rfl, rfl⟩
  | some p =>
    obtain ⟨red, ir⟩ := p
    rw [updSensors_sample]
    split <;> simp

@[simp] theorem updVitals_frame (s : State) :
    (updVitals s).vitals = s.vitals ∧
    (updVitals s).lastSensor = s.lastSensor ∧
    (updVitals s).lastDisp = s.lastDisp ∧
    (updVitals s).lastAlert = s.lastAlert ∧
    (updVitals s).screen = s.screen ∧
    (updVitals s).clock = s.clock ∧
    (updVitals s).lastAlertTime = s.lastAlertTime ∧
    (updVitals s).alertCnt = s.alertCnt ∧
    (updVitals s).alertLogCnt = s.alertLogCnt ∧
    (updVitals s).alerts = s.alerts ∧
    (updVitals s).alertLog = s.alertLog ∧
    (updVitals s).alertTime = s.alertTime ∧
    (updVitals s).lastCheck = s.lastCheck ∧
    (updVitals s).reads = s.reads ∧
    (updVitals s).bufIdx = s.bufIdx ∧
    (updVitals s).irBuf = s.irBuf ∧
    (updVitals s).redBuf = s.redBuf := ⟨rfl, rfl, rfl, rfl, rfl, rfl, rfl, rfl, rfl, rfl, rfl, rfl, rfl, rfl, rfl, rfl, rfl⟩

@[simp] theorem updDisp_frame (s : State) :
    (updDisp s).vitals = s.vitals ∧
    (updDisp s).lastSensor = s.lastSensor ∧
    (updDisp s).lastDisp = s.lastDisp ∧
    (updDisp s).lastAlert = s.lastAlert ∧
    (updDisp s).screen = s.screen ∧
    (updDisp s).clock = s.clock ∧
    (updDisp s).lastAlertTime = s.lastAlertTime ∧
    (updDisp s).alertCnt = s.alertCnt ∧
    (updDisp s).alertLogCnt = s.alertLogCnt ∧
    (updDisp s).alerts = s.alerts ∧
    (updDisp s).alertLog = s.alertLog ∧
    (updDisp s).alertTime = s.alertTime ∧
    (updDisp s).lastCheck = s.lastCheck ∧
    (updDisp s).reads = s.reads ∧
    (updDisp s).bufIdx = s.bufIdx ∧
    (updDisp s).irBuf = s.irBuf ∧
    (updDisp s).redBuf = s.redBuf := by
  unfold updDisp; split <;> exact ⟨rfl, rfl, rfl, rfl, rfl, rfl, rfl, rfl, rfl, rfl, rfl, rfl, rfl, rfl, rfl, rfl, rfl⟩

@[simp] theorem handleTouch_frame (touch : Option (Int × Int)) (s : State) :
    (handleTouch touch s).vitals = s.vitals ∧
    (handleTouch touch s).lastSensor = s.lastSensor ∧
    (handleTouch touch s).lastDisp = s.lastDisp ∧
    (handleTouch touch s).lastAlert = s.lastAlert ∧
    (handleTouch touch s).screen = s.screen ∧
    (handleTouch touch s).clock = s.clock ∧
    (handleTouch touch s).lastAlertTime = s.lastAlertTime ∧
    (handleTouch touch s).alertCnt = s.alertCnt ∧
    (handleTouch touch s).alertLogCnt = s.alertLogCnt ∧
    (handleTouch touch s).alerts = s.alerts ∧
    (handleTouch touch s).alertLog = s.alertLog ∧
    (handleTouch touch s).alertTime = s.alertTime ∧
    (handleTouch touch s).lastCheck = s.lastCheck ∧
    (handleTouch touch s).reads = s.reads ∧
    (handleTouch touch s).bufIdx = s.bufIdx ∧
    (handleTouch touch s).irBuf = s.irBuf ∧
    (handleTouch touch s).redBuf = s.redBuf := by
  cases touch <;> exact ⟨rfl, rfl, rfl, rfl, rfl, rfl, rfl, rfl, rfl, rfl, rfl, rfl, rfl, rfl, rfl, rfl, rfl⟩

/-! ## C13: the scheduler -/

/-- Unsigned 32-bit subtraction recovers the true elapsed time across a wrap of
the tick counter. -/
theorem sub32_elapsed (last e : Nat) (he : e < U32) :
    sub32 ((last + e) % U32) last = e := by
  simp only [sub32, U32] at *
  omega

/-- C13.  In one loop iteration, with `t` the tick value read at its start,
the sensor update runs iff `(t - lastSensor) mod 2^32 ≥ 100`, the display
update iff `(t - lastDisp) mod 2^32 ≥ 100` and the alert check iff
`(t - lastAlert) mod 2^32 ≥ 1000`, each decided on the timestamps held at the
start of the iteration; a subsystem that runs has its timestamp set to `t`, one
that does not keeps it.  When the true elapsed time `e` since the last run is
below `2^32`, the decision equals `e ≥ interval` even across a wrap. -/
theorem loop_firing_rule (est : Estimator) (inp : LoopIn) (s : State) :
    loop est inp s =
      emit [Event.delay 10] (chkMem inp.mem (alertStep (now s) (dispStep (now s)
        (sensorStep est inp (now s) (handleTouch inp.touch (tick s)))))) ∧
    sensorStep est inp (now s) (handleTouch inp.touch (tick s)) =
      (if SENSOR_INT ≤ sub32 (now s) s.lastSensor then
        updSensors est inp.raw inp.sample
          { handleTouch inp.touch (tick s) with lastSensor := now s }
      else handleTouch inp.touch (tick s)) ∧
    dispStep (now s) (sensorStep est inp (now s) (handleTouch inp.touch (tick s))) =
      (if DISP_INT ≤ sub32 (now s) s.lastDisp then
        updDisp { sensorStep est inp (now s) (handleTouch inp.touch (tick s)) with
          lastDisp := now s }
      else sensorStep est inp (now s) (handleTouch inp.touch (tick s))) ∧
    alertStep (now s) (dispStep (now s)
        (sensorStep est inp (now s) (handleTouch inp.touch (tick s)))) =
      (if 1000 ≤ sub32 (now s) s.lastAlert then
        chkAlerts { dispStep (now s)
          (sensorStep est inp (now s) (handleTouch inp.touch (tick s))) with
          lastAlert := now s }
      else dispStep (now s) (sensorStep est inp (now s) (handleTouch inp.touch (tick s)))) ∧
    (loop est inp s).lastSensor =
      (if SENSOR_INT ≤ sub32 (now s) s.lastSensor then now s else s.lastSensor) ∧
    (loop est inp s).lastDisp =
      (if DISP_INT ≤ sub32 (now s) s.lastDisp then now s else s.lastDisp) ∧
    (loop est inp s).lastAlert =
      (if 1000 ≤ sub32 (now s) s.lastAlert then now s else s.lastAlert) ∧
    (∀ last e interval, e < U32 →
      (interval ≤ sub32 ((last + e) % U32) last ↔ interval ≤ e)) := by
  have e1 : (sensorStep est inp (now s) (handleTouch inp.touch (tick s))).lastSensor =
      (if SENSOR_INT ≤ sub32 (now s) s.lastSensor then now s else s.lastSensor) := by
    unfold sensorStep
    simp only [handleTouch_frame, tick_sched, ge_iff_le]
    split <;> simp
  have e2 : (sensorStep est inp (now s) (handleTouch inp.touch (tick s))).lastDisp =
      s.lastDisp := by
    unfold sensorStep; split <;> simp
  have e3 : (sensorStep est inp (now s) (handleTouch inp.touch (tick s))).lastAlert =
      s.lastAlert := by
    unfold sensorStep; split <;> simp
  have d1 : (dispStep (now s) (sensorStep est inp (now s)
      (handleTouch inp.touch (tick s)))).lastSensor =
      (if SENSOR_INT ≤ sub32 (now s) s.lastSensor then now s else s.lastSensor) := by
    unfold dispStep; split <;> simp [e1]
  have d2 : (dispStep (now s) (sensorStep est inp (now s)
      (handleTouch inp.touch (tick s)))).lastDisp =
      (if DISP_INT ≤ sub32 (now s) s.lastDisp then now s else s.lastDisp) := by
    unfold dispStep
    simp only [e2, ge_iff_le]
    split <;> simp [e2]
  have d3 : (dispStep (now s) (sensorStep est inp (now s)
      (handleTouch inp.touch (tick s)))).lastAlert = s.lastAlert := by
    unfold dispStep; split <;> simp [e3]
  have a1 : (alertStep (now s) (dispStep (now s) (sensorStep est inp (now s)
      (handleTouch inp.touch (tick s))))).lastSensor =
      (if SENSOR_INT ≤ sub32 (now s) s.lastSensor then now s else s.lastSensor) := by
    unfold alertStep; split <;> simp [d1]
  have a2 : (alertStep (now s) (dispStep (now s) (sensorStep est inp (now s)
      (handleTouch inp.touch (tick s))))).lastDisp =
      (if DISP_INT ≤ sub32 (now s) s.lastDisp then now s else s.lastDisp) := by
    unfold alertStep; split <;> simp [d2]
  have a3 : (alertStep (now s) (dispStep (now s) (sensorStep est inp (now s)
      (handleTouch inp.touch (tick s))))).lastAlert =
      (if 1000 ≤ sub32 (now s) s.lastAlert then now s else s.lastAlert) := by
    unfold alertStep
    simp only [d3, ge_iff_le]
    split <;> simp [d3]
  refine ⟨rfl, ?_, ?_, ?_, ?_, ?_, ?_, ?_⟩
  · unfold sensorStep
    simp only [handleTouch_frame, tick_sched, ge_iff_le]
  · unfold dispStep
    simp only [e2, ge_iff_le]
  · unfold alertStep
    simp only [d3, ge_iff_le]
  · show (emit [Event.delay 10] (chkMem inp.mem _)).lastSensor = _
    simp [a1]
  · show (emit [Event.delay 10] (chkMem inp.mem _)).lastDisp = _
    simp [a2]
  · show (emit [Event.delay 10] (chkMem inp.mem _)).lastAlert = _
    simp [a3]
  · intro last e interval he
    rw [sub32_elapsed last e he]

/-- C13 witness: the tick counter wrapped between the last runs and now
(`t = 50`); the sensor (100 ms elapsed) and the alert check (1000 ms elapsed)
run, the display (60 ms elapsed) does not. -/
theorem loop_firing_rule_witness :
    (loop estInvalid idleIn wrappedState).lastSensor = 50 ∧
    (loop estInvalid idleIn wrappedState).lastDisp = 4294967286 ∧
    (loop estInvalid idleIn wrappedState).lastAlert = 50 ∧
    ((100 : Nat) ≤ sub32 ((4294967246 + 100) % U32) 4294967246 ↔ (100 : Nat) ≤ 100) := by
  have h := loop_firing_rule estInvalid idleIn wrappedState
  obtain ⟨-, -, -, -, h1, h2, h3, h4⟩ := h
  exact ⟨h1.trans (by decide), h2.trans (by decide), h3.trans (by decide),
    h4 4294967246 100 100 (by decide)⟩

/-! ## C18: the vital signs stay in range -/

theorem intToU8_lt (x : Int) (b : Nat) (h0 : 0 < x) (h1 : x < b) (hb : b ≤ 256) :
    intToU8 x < b := by
  have := intToU8_cast x h0 (by omega)
  omega

theorem intToU8_le (x : Int) (b : Nat) (h0 : 0 < x) (h1 : x ≤ b) (hb : b < 256) :
    intToU8 x ≤ b := by
  have := intToU8_cast x h0 (by omega)
  omega

/-- The estimation pass keeps heart rate within `0..200` and SpO2 within
`0..100`, whatever the estimator returns. -/
theorem estimatePass_range (est : Estimator) (s : State)
    (h : s.vitals.hr ≤ 200 ∧ s.vitals.spo2 ≤ 100) :
    (estimatePass est s).vitals.hr ≤ 200 ∧ (estimatePass est s).vitals.spo2 ≤ 100 := by
  cases hf : s.finger with
  | false =>
    rw [estimatePass_no_finger est s hf]
    exact ⟨Nat.zero_le _, Nat.zero_le _⟩
  | true =>
    obtain ⟨e1, e2, -⟩ := estimatePass_finger est s hf
    rw [e1, e2]
    constructor
    · split
      · rename_i hv
        exact le_of_lt (intToU8_lt _ 200 hv.2.1 hv.2.2 (by decide))
      · exact h.1
    · split
      · rename_i hv
        exact intToU8_le _ 100 hv.2.1 hv.2.2 (by decide)
      · exact h.2

theorem updSensors_range (est : Estimator) (raw : Nat) (sample : Option (Nat × Nat))
    (s : State) (h : s.vitals.hr ≤ 200 ∧ s.vitals.spo2 ≤ 100 ∧ s.vitals.bat ≤ 100) :
    (updSensors est raw sample s).vitals.hr ≤ 200 ∧
    (updSensors est raw sample s).vitals.spo2 ≤ 100 ∧
    (updSensors est raw sample s).vitals.bat ≤ 100 := by
  have hbat : (updSensors est raw sample s).vitals.bat ≤ 100 := by
    rw [updSensors_bat]
    split
    · exact Nat.le_refl _
    · omega
  refine ⟨?_, ?_, hbat⟩
  · cases sample with
    | none => exact h.1
    | some p =>
      obtain ⟨red, ir⟩ := p
      rw [updSensors_sample]
      split
      · exact (estimatePass_range est (rewind (recordSample red ir (readBattery raw s)))
          ⟨h.1, h.2.1⟩).1
      · exact h.1
  · cases sample with
    | none => exact h.2.1
    | some p =>
      obtain ⟨red, ir⟩ := p
      rw [updSensors_sample]
      split
      · exact (estimatePass_range est (rewind (recordSample red ir (readBattery raw s)))
          ⟨h.1, h.2.1⟩).2
      · exact h.2.1

/-- C18.  The predicate `hr ≤ 200 ∧ spo2 ≤ 100 ∧ bat ≤ 100` holds in the
initial state and is preserved by every call of `updSensors`, hence by every
sequence of calls, for every raw ADC reading, every sample and every estimator
(its outputs are arbitrary integers). -/
theorem vitals_range_invariant (est : Estimator) (clock : Nat → Nat) :
    ((initState clock).vitals.hr ≤ 200 ∧ (initState clock).vitals.spo2 ≤ 100 ∧
      (initState clock).vitals.bat ≤ 100) ∧
    (∀ (raw : Nat) (sample : Option (Nat × Nat)) (s : State),
      (s.vitals.hr ≤ 200 ∧ s.vitals.spo2 ≤ 100 ∧ s.vitals.bat ≤ 100) →
      ((updSensors est raw sample s).vitals.hr ≤ 200 ∧
       (updSensors est raw sample s).vitals.spo2 ≤ 100 ∧
       (updSensors est raw sample s).vitals.bat ≤ 100)) ∧
    (∀ (inputs : List (Nat × Option (Nat × Nat))),
      ((runSensors est inputs (initState clock)).vitals.hr ≤ 200 ∧
       (runSensors est inputs (initState clock)).vitals.spo2 ≤ 100 ∧
       (runSensors est inputs (initState clock)).vitals.bat ≤ 100)) := by
  have h0 : (initState clock).vitals.hr ≤ 200 ∧ (initState clock).vitals.spo2 ≤ 100 ∧
      (initState clock).vitals.bat ≤ 100 := by
    refine ⟨?_, ?_, ?_⟩ <;> exact Nat.zero_le _
  refine ⟨h0, fun raw sample s h => updSensors_range est raw sample s h, ?_⟩
  intro inputs
  have key : ∀ (l : List (Nat × Option (Nat × Nat))) (s : State),
      (s.vitals.hr ≤ 200 ∧ s.vitals.spo2 ≤ 100 ∧ s.vitals.bat ≤ 100) →
      ((runSensors est l s).vitals.hr ≤ 200 ∧ (runSensors est l s).vitals.spo2 ≤ 100 ∧
        (runSensors est l s).vitals.bat ≤ 100) := by
    intro l
    induction l with
    | nil => intro s h; exact h
    | cons x xs ih =>
      intro s h
      exact ih _ (updSensors_range est x.1 x.2 s h)
  exact key inputs _ h0

/-- C18 witness: the estimator reports a valid heart rate of 205 on the 25th
sample; the stored values stay in range. -/
theorem vitals_range_invariant_witness :
    (updSensors est205 1023 (some (60000, 60000)) { goodState with bufIdx := 24 }).vitals.hr
      ≤ 200 ∧
    (updSensors est205 1023 (some (60000, 60000)) { goodState with bufIdx := 24 }).vitals.spo2
      ≤ 100 ∧
    (updSensors est205 1023 (some (60000, 60000)) { goodState with bufIdx := 24 }).vitals.bat
      ≤ 100 :=
  (vitals_range_invariant est205 (constClock 6000)).2.1 1023 (some (60000, 60000))
    { goodState with bufIdx := 24 } (by decide)

/-! ## C17: the sample cursor -/

/-- One call with a sample, the cursor being inside the buffer: the pair is
written at the cursor, the cursor advances modulo 25, and the
window-completion step runs exactly when the cursor wraps. -/
theorem updSensors_cursor (est : Estimator) (raw red ir : Nat) (s : State)
    (h : s.bufIdx < 25) :
    (updSensors est raw (some (red, ir)) s).bufIdx = (s.bufIdx + 1) % 25 ∧
    (updSensors est raw (some (red, ir)) s).irBuf = s.irBuf.set s.bufIdx ir ∧
    (updSensors est raw (some (red, ir)) s).redBuf = s.redBuf.set s.bufIdx red ∧
    updSensors est raw (some (red, ir)) s =
      emit [Event.nextSample]
        (if (s.bufIdx + 1) % 25 = 0 then
          estimatePass est (rewind (recordSample red ir (readBattery raw s)))
        else recordSample red ir (readBattery raw s)) := by
  have hb : (recordSample red ir (readBattery raw s)).bufIdx = s.bufIdx + 1 := by
    show (s.bufIdx + 1) % 256 = s.bufIdx + 1
    omega
  by_cases h24 : s.bufIdx = 24
  · have hc := updSensors_complete est raw red ir s h24
    have hm : (s.bufIdx + 1) % 25 = 0 := by rw [h24]
    rw [if_pos hm, hc, hm]
    refine ⟨?_, ?_, ?_, rfl⟩
    · show (estimatePass est (rewind (recordSample red ir (readBattery raw s)))).bufIdx = 0
      simp only [estimatePass_frame]
      rfl
    · show (estimatePass est (rewind (recordSample red ir (readBattery raw s)))).irBuf = _
      simp only [estimatePass_frame]
      rfl
    · show (estimatePass est (rewind (recordSample red ir (readBattery raw s)))).redBuf = _
      simp only [estimatePass_frame]
      rfl
  · have hnot : ¬ (recordSample red ir (readBattery raw s)).bufIdx ≥ BUF_SIZE := by
      rw [hb]; simp only [BUF_SIZE]; omega
    have hm : ¬ (s.bufIdx + 1) % 25 = 0 := by omega
    have hm2 : (s.bufIdx + 1) % 25 = s.bufIdx + 1 := by omega
    rw [if_neg hm, updSensors_sample, if_neg hnot, hm2]
    exact ⟨hb, rfl, rfl, rfl⟩

theorem runSensors_cons (est : Estimator) (x : Nat × Option (Nat × Nat))
    (xs : List (Nat × Option (Nat × Nat))) (s : State) :
    runSensors est (x :: xs) s = runSensors est xs (updSensors est x.1 x.2 s) := rfl

/-- The cursor after a run counts the available samples modulo 25. -/
theorem runSensors_cursor (est : Estimator) (inputs : List (Nat × Option (Nat × Nat))) :
    ∀ (s : State) (c : Nat), s.bufIdx = c % 25 →
      (runSensors est inputs s).bufIdx = (c + sampleCount inputs) % 25 := by
  induction inputs with
  | nil => intro s c h; exact h
  | cons x xs ih =>
    intro s c h
    obtain ⟨raw, sample⟩ := x
    rw [runSensors_cons]
    cases sample with
    | none =>
      exact ih _ c h
    | some p =>
      obtain ⟨red, ir⟩ := p
      have hlt : s.bufIdx < 25 := by rw [h]; exact Nat.mod_lt _ (by decide)
      have h1 := (updSensors_cursor est raw red ir s hlt).1
      have := ih (updSensors est raw (some (red, ir)) s) (c + 1) (by rw [h1, h]; omega)
      rw [this]
      show _ = (c + (sampleCount xs + 1)) % 25
      congr 1
      omega

/-- C17.  Starting from cursor 0, after any sequence of `updSensors` calls the
cursor equals the number of calls that had a sample, modulo 25.  The next
sample is therefore written at that index (below 25), and its call runs the
window-completion step exactly when it is sample number 25, 50, 75, ...;
otherwise heart rate and SpO2 are untouched and the estimator is not called.
A call with no sample changes neither the cursor nor the buffers. -/
theorem cursor_invariant (est : Estimator) (inputs : List (Nat × Option (Nat × Nat)))
    (s : State) (h0 : s.bufIdx = 0) :
    (runSensors est inputs s).bufIdx = sampleCount inputs % 25 ∧
    (runSensors est inputs s).bufIdx < 25 ∧
    (∀ raw red ir,
      (updSensors est raw (some (red, ir)) (runSensors est inputs s)).irBuf =
        (runSensors est inputs s).irBuf.set (sampleCount inputs % 25) ir ∧
      (updSensors est raw (some (red, ir)) (runSensors est inputs s)).redBuf =
        (runSensors est inputs s).redBuf.set (sampleCount inputs % 25) red ∧
      (updSensors est raw (some (red, ir)) (runSensors est inputs s)).bufIdx =
        (sampleCount inputs + 1) % 25 ∧
      updSensors est raw (some (red, ir)) (runSensors est inputs s) =
        emit [Event.nextSample]
          (if (sampleCount inputs + 1) % 25 = 0 then
            estimatePass est (rewind (recordSample red ir
              (readBattery raw (runSensors est inputs s))))
          else recordSample red ir (readBattery raw (runSensors est inputs s))) ∧
      ((sampleCount inputs + 1) % 25 ≠ 0 →
        (updSensors est raw (some (red, ir)) (runSensors est inputs s)).vitals.hr =
          (runSensors est inputs s).vitals.hr ∧
        (updSensors est raw (some (red, ir)) (runSensors est inputs s)).vitals.spo2 =
          (runSensors est inputs s).vitals.spo2 ∧
        (updSensors est raw (some (red, ir)) (runSensors est inputs s)).out =
          (runSensors est inputs s).out ++ [Event.nextSample])) ∧
    (∀ raw,
      (updSensors est raw none (runSensors est inputs s)).bufIdx =
        (runSensors est inputs s).bufIdx ∧
      (updSensors est raw none (runSensors est inputs s)).irBuf =
        (runSensors est inputs s).irBuf ∧
      (updSensors est raw none (runSensors est inputs s)).redBuf =
        (runSensors est inputs s).redBuf) := by
  have hc : (runSensors est inputs s).bufIdx = sampleCount inputs % 25 := by
    have := runSensors_cursor est inputs s 0 (by rw [h0])
    simpa using this
  have hlt : (runSensors est inputs s).bufIdx < 25 := by
    rw [hc]; exact Nat.mod_lt _ (by decide)
  refine ⟨hc, hlt, ?_, fun raw => ⟨rfl, rfl, rfl⟩⟩
  intro raw red ir
  obtain ⟨c1, c2, c3, c4⟩ := updSensors_cursor est raw red ir (runSensors est inputs s) hlt
  have hmod : ((runSensors est inputs s).bufIdx + 1) % 25 = (sampleCount inputs + 1) % 25 := by
    rw [hc]; omega
  rw [hmod] at c1 c4
  rw [hc] at c2 c3
  refine ⟨c2, c3, c1, c4, ?_⟩
  intro hne
  rw [c4, if_neg hne]
  exact ⟨rfl, rfl, rfl⟩

/-- C17 witness: 26 samples with one sample-less call in between leave the
cursor at 1; the 25th sample completes a window, the 24th does not. -/
theorem cursor_invariant_witness :
    (runSensors estInvalid
      (List.replicate 13 (800, some (55000, 60000)) ++ (800, none) ::
        List.replicate 13 (800, some (55000, 60000))) goodState).bufIdx = 1 ∧
    (updSensors estInvalid 800 (some (55000, 60000))
      (runSensors estInvalid (List.replicate 23 (800, some (55000, 60000))) goodState)).out
      = (runSensors estInvalid (List.replicate 23 (800, some (55000, 60000))) goodState).out
        ++ [Event.nextSample] := by
  have h := cursor_invariant estInvalid
    (List.replicate 13 (800, some (55000, 60000)) ++ (800, none) ::
      List.replicate 13 (800, some (55000, 60000))) goodState rfl
  have g := cursor_invariant estInvalid (List.replicate 23 (800, some (55000, 60000)))
    goodState rfl
  exact ⟨h.1.trans (by decide), (g.2.2.1 800 55000 60000).2.2.2.2 (by decide) |>.2.2⟩

/-! ## Clock reads only grow -/

theorem pushActive_reads_le (lvl : Nat) (msg : List Char) (s : State) :
    s.reads ≤ (pushActive lvl msg s).reads := by
  unfold pushActive
  split
  · exact Nat.le_succ _
  · exact Nat.le_refl _

theorem showAlert_reads_lt (msg : List Char) (lvl : Nat) (s : State) :
    s.reads < (showAlert msg lvl s).reads := by
  unfold showAlert
  cases h : s.alertTime <;> simp only [emit, tick, h] <;> split <;> simp <;> omega

theorem trigAlert_reads_lt (lvl : Nat) (msg : List Char) (s : State) :
    s.reads < (trigAlert lvl msg s).reads := by
  unfold trigAlert
  split
  · exact Nat.lt_succ_self _
  · have h1 := showAlert_reads_lt msg lvl
      (playAlert lvl (stampAlert (pushLog lvl msg (pushActive lvl msg (tick s)))))
    have h2 := pushActive_reads_le lvl msg (tick s)
    simp only [playAlert_reads, stampAlert_reads, pushLog_reads, tick_reads] at h1 h2
    omega

theorem chkHr_reads_le (s : State) : s.reads ≤ (chkHr s).reads := by
  rw [chkHr_eq]
  split
  · exact le_of_lt (trigAlert_reads_lt _ _ s)
  · exact Nat.le_refl _

theorem chkSpo2_reads_le (s : State) : s.reads ≤ (chkSpo2 s).reads := by
  rw [chkSpo2_eq]
  split
  · exact le_of_lt (trigAlert_reads_lt _ _ s)
  · exact Nat.le_refl _

theorem chkBat_reads_le (s : State) : s.reads ≤ (chkBat s).reads := by
  rw [chkBat_eq]
  split
  · exact le_of_lt (trigAlert_reads_lt _ _ s)
  · exact Nat.le_refl _

theorem chkAlerts_reads_lt (s : State) : s.reads < (chkAlerts s).reads := by
  unfold chkAlerts
  have h1 := chkHr_reads_le s
  have h2 := chkSpo2_reads_le (chkHr s)
  have h3 := chkBat_reads_le (chkSpo2 (chkHr s))
  simp only [rmAlerts_frame]
  omega

theorem chkMem_reads_lt (mem : Int) (s : State) : s.reads < (chkMem mem s).reads := by
  unfold chkMem
  simp only []
  (repeat' split) <;> simp [tick] <;> omega

/-! ## C19: one alert per pass -/

/-- A trigger that passes the gate stamps the cooldown timer with a clock
reading taken during the call. -/
theorem trigAlert_fired_stamp (lvl : Nat) (msg : List Char) (s : State)
    (h : cooldownElapsed s) :
    ∃ i, s.reads ≤ i ∧ i < (trigAlert lvl msg s).reads ∧
      (trigAlert lvl msg s).lastAlertTime = s.clock i % U32 := by
  refine ⟨(pushLog lvl msg (pushActive lvl msg (tick s))).reads, ?_, ?_, ?_⟩
  · have := pushActive_reads_le lvl msg (tick s)
    simp only [pushLog_reads, tick_reads] at *
    omega
  · rw [trigAlert_fired lvl msg s h]
    have := showAlert_reads_lt msg lvl
      (playAlert lvl (stampAlert (pushLog lvl msg (pushActive lvl msg (tick s)))))
    simp only [playAlert_reads, stampAlert_reads] at this
    omega
  · rw [trigAlert_fired lvl msg s h]
    simp [now]

/-- A trigger attempted while every clock reading up to `R` lies fewer than
5000 ms after the reading that stamped the cooldown timer is suppressed. -/
theorem trigAlert_masked (lvl : Nat) (msg : List Char) (u : State) (c : Nat → Nat)
    (i R : Nat) (hclk : u.clock = c) (hst : u.lastAlertTime = c i % U32)
    (hi : i ≤ u.reads) (hR : (trigAlert lvl msg u).reads ≤ R)
    (H : ∀ j, i ≤ j → j < R → sub32 (c j % U32) (c i % U32) < ALERT_CD) :
    trigAlert lvl msg u = tick u := by
  apply trigAlert_suppressed
  have hlt := trigAlert_reads_lt lvl msg u
  have := H u.reads hi (by omega)
  unfold now
  rw [hclk, hst]
  exact this

/-- A later check of the same pass, made in a state whose cooldown timer was
stamped at reading `i`, changes nothing but the count of clock reads. -/
theorem later_check_masked (chk : State → State) (cond : State → Prop)
    [DecidablePred cond] (lvl : State → Nat) (msg : State → List Char)
    (hchk : ∀ u, chk u = if cond u then trigAlert (lvl u) (msg u) u else u)
    (u : State) (c : Nat → Nat) (i R : Nat) (hclk : u.clock = c)
    (hst : u.lastAlertTime = c i % U32) (hi : i ≤ u.reads) (hR : (chk u).reads ≤ R)
    (H : ∀ j, i ≤ j → j < R → sub32 (c j % U32) (c i % U32) < ALERT_CD) :
    sameAlertState (chk u) u ∧ (chk u).clock = c ∧
      (chk u).lastAlertTime = c i % U32 ∧ i ≤ (chk u).reads := by
  rw [hchk u] at hR ⊢
  split
  · rename_i hcond
    rw [if_pos hcond] at hR
    rw [trigAlert_masked (lvl u) (msg u) u c i R hclk hst hi hR H]
    exact ⟨⟨rfl, rfl, rfl, rfl, rfl, rfl⟩, hclk, hst, Nat.le_succ_of_le hi⟩
  · exact ⟨⟨rfl, rfl, rfl, rfl, rfl, rfl⟩, hclk, hst, hi⟩

theorem sameAlertState_trans (a b c : State) (h1 : sameAlertState a b)
    (h2 : sameAlertState b c) : sameAlertState a c :=
  ⟨h1.1.trans h2.1, h1.2.1.trans h2.2.1, h1.2.2.1.trans h2.2.2.1,
   h1.2.2.2.1.trans h2.2.2.2.1, h1.2.2.2.2.1.trans h2.2.2.2.2.1,
   h1.2.2.2.2.2.trans h2.2.2.2.2.2⟩

theorem sameAlertState_refl (a : State) : sameAlertState a a :=
  ⟨rfl, rfl, rfl, rfl, rfl, rfl⟩

/-- After a trigger that passed the gate at the start of the pass, the
remaining checks `rest` of the pass, each masked, leave the alert state as the
trigger left it. -/
theorem masked_after_fired (s : State) (lvl : Nat) (msg : List Char) (R : Nat)
    (hc : cooldownElapsed s)
    (H : ∀ i j, s.reads ≤ i → i ≤ j → j < R →
      sub32 (s.clock j % U32) (s.clock i % U32) < ALERT_CD) :
    ((chkBat (trigAlert lvl msg s)).reads ≤ R →
      sameAlertState (chkBat (trigAlert lvl msg s)) (trigAlert lvl msg s)) ∧
    ((chkBat (chkSpo2 (trigAlert lvl msg s))).reads ≤ R →
      sameAlertState (chkBat (chkSpo2 (trigAlert lvl msg s))) (trigAlert lvl msg s)) := by
  obtain ⟨i, hi1, hi2, hst⟩ := trigAlert_fired_stamp lvl msg s hc
  have hclk : (trigAlert lvl msg s).clock = s.clock := by simp
  have H' : ∀ j, i ≤ j → j < R → sub32 (s.clock j % U32) (s.clock i % U32) < ALERT_CD :=
    fun j h1 h2 => H i j hi1 h1 h2
  constructor
  · intro hR
    exact (later_check_masked chkBat (fun u => u.vitals.bat < 20)
      (fun u => if u.vitals.bat < 10 then ALERT_CRIT else ALERT_WARN)
      (fun u => snprintf MAX_STR (['B', 'a', 't', ':'] ++ fmtD u.vitals.bat))
      chkBat_eq _ s.clock i R hclk hst (le_of_lt hi2) hR H').1
  · intro hR
    have hR2 : (chkSpo2 (trigAlert lvl msg s)).reads ≤ R :=
      (chkBat_reads_le _).trans hR
    obtain ⟨a1, a2, a3, a4⟩ := later_check_masked chkSpo2
      (fun u => u.vitals.finger = true ∧ 0 < u.vitals.spo2 ∧ u.vitals.spo2 < 95)
      (fun u => if u.vitals.spo2 < 90 then ALERT_CRIT else ALERT_WARN)
      (fun u => snprintf MAX_STR (['S', 'p', 'O', '2', ':'] ++ fmtD u.vitals.spo2))
      chkSpo2_eq _ s.clock i R hclk hst (le_of_lt hi2) hR2 H'
    have b1 := (later_check_masked chkBat (fun u => u.vitals.bat < 20)
      (fun u => if u.vitals.bat < 10 then ALERT_CRIT else ALERT_WARN)
      (fun u => snprintf MAX_STR (['B', 'a', 't', ':'] ++ fmtD u.vitals.bat))
      chkBat_eq _ s.clock i R a2 a3 a4 hR H').1
    exact sameAlertState_trans _ _ _ b1 a1

theorem trigAlert_alertLogCnt_le_succ (lvl : Nat) (msg : List Char) (s : State) :
    (trigAlert lvl msg s).alertLogCnt ≤ s.alertLogCnt + 1 := by
  unfold trigAlert
  split
  · exact Nat.le_succ _
  · simp only [showAlert_alertLogCnt, playAlert_alertLogCnt, stampAlert_alertLogCnt]
    unfold pushLog
    split
    · simp only [pushActive_alertLogCnt, tick_alertLogCnt, u8]
      exact Nat.mod_le _ _
    · simp

/-- C19.  If the cooldown has elapsed at the start of a `chkAlerts` call and
any two clock readings taken during the call are fewer than 5000 ms apart
(32-bit subtraction), then the three checks together leave the active alerts,
the alert log, the cooldown timer and the output trace exactly as the single
alert of the first violated check (heart rate, then SpO2, then battery) leaves
them, and as they were when no check is violated: every later violated check
is neither logged nor made active nor signalled, and the log grows by at most
one entry. -/
theorem chkAlerts_priority (s : State) (hc : cooldownElapsed s)
    (H : ∀ i j, s.reads ≤ i → i ≤ j → j < (chkAlerts s).reads →
      sub32 (s.clock j % U32) (s.clock i % U32) < ALERT_CD) :
    sameAlertState (chkBat (chkSpo2 (chkHr s))) (firstAlert s) ∧
    (chkAlerts s).log = (firstAlert s).log ∧
    (chkAlerts s).out = (firstAlert s).out ∧
    (chkAlerts s).lastAlertTime = (firstAlert s).lastAlertTime ∧
    (chkAlerts s).alertLogCnt ≤ s.alertLogCnt + 1 := by
  have hR : (chkBat (chkSpo2 (chkHr s))).reads ≤ (chkAlerts s).reads := by
    unfold chkAlerts
    simp only [rmAlerts_frame]
    exact Nat.le_succ _
  have key : sameAlertState (chkBat (chkSpo2 (chkHr s))) (firstAlert s) := by
    by_cases hhr : s.vitals.finger = true ∧ 0 < s.vitals.hr ∧
        (s.vitals.hr < 60 ∨ 100 < s.vitals.hr)
    · have e1 : firstAlert s =
          trigAlert (if s.vitals.hr < 50 ∨ 120 < s.vitals.hr then ALERT_CRIT else ALERT_WARN)
            (snprintf MAX_STR (['H', 'R', ':'] ++ fmtD s.vitals.hr)) s := by
        unfold firstAlert firstViolation
        rw [if_pos hhr]
      rw [chkHr_eq, if_pos hhr] at hR ⊢
      rw [e1]
      exact (masked_after_fired s _ _ _ hc H).2 hR
    · have e0 : chkHr s = s := by rw [chkHr_eq, if_neg hhr]
      rw [e0] at hR ⊢
      by_cases hsp : s.vitals.finger = true ∧ 0 < s.vitals.spo2 ∧ s.vitals.spo2 < 95
      · have e1 : firstAlert s =
            trigAlert (if s.vitals.spo2 < 90 then ALERT_CRIT else ALERT_WARN)
              (snprintf MAX_STR (['S', 'p', 'O', '2', ':'] ++ fmtD s.vitals.spo2)) s := by
          unfold firstAlert firstViolation
          rw [if_neg hhr, if_pos hsp]
        rw [chkSpo2_eq, if_pos hsp] at hR ⊢
        rw [e1]
        exact (masked_after_fired s _ _ _ hc H).1 hR
      · have e2 : chkSpo2 s = s := by rw [chkSpo2_eq, if_neg hsp]
        rw [e2]
        have e3 : firstAlert s = chkBat s := by
          unfold firstAlert firstViolation
          rw [if_neg hhr, if_neg hsp, chkBat_eq]
          by_cases hb : s.vitals.bat < 20
          · rw [if_pos hb, if_pos hb]
          · rw [if_neg hb, if_neg hb]
        rw [e3]
        exact sameAlertState_refl _
  obtain ⟨k1, k2, k3, k4, k5, k6⟩ := key
  have hlogcnt : (chkAlerts s).alertLogCnt = (firstAlert s).alertLogCnt := by
    unfold chkAlerts; simp only [rmAlerts_frame]; exact k4
  refine ⟨⟨k1, k2, k3, k4, k5, k6⟩, ?_, ?_, ?_, ?_⟩
  · unfold State.log
    rw [hlogcnt]
    unfold chkAlerts; simp only [rmAlerts_frame]; rw [k3]
  · unfold chkAlerts; simp only [rmAlerts_frame]; exact k6
  · unfold chkAlerts; simp only [rmAlerts_frame]; exact k5
  · rw [hlogcnt]
    unfold firstAlert
    split
    · exact Nat.le_succ _
    · exact trigAlert_alertLogCnt_le_succ _ _ s

/-- C19 witness: all three checks are violated at a constant clock; only the
heart-rate alert is logged and made active. -/
theorem chkAlerts_priority_witness :
    (chkAlerts allBadState).log = [⟨ALERT_CRIT, ['H', 'R', ':', '4', '0'], 6000, false⟩] ∧
    (chkBat (chkSpo2 (chkHr allBadState))).alertCnt = 1 := by
  have h := chkAlerts_priority allBadState (by decide)
    (fun i j _ _ _ => by show sub32 (6000 % U32) (6000 % U32) < ALERT_CD; decide)
  exact ⟨h.2.1.trans (by decide), h.1.2.1.trans (by decide)⟩

/-! ## C20: start-up suppression -/

theorem sub32_zero (a : Nat) (h : a < U32) : sub32 a 0 = a := by
  simp only [sub32, U32] at *
  omega

theorem now_lt (s : State) : now s < U32 := Nat.mod_lt _ (by decide)

/-- With the cooldown timer at 0, a trigger attempted while the clock reads
less than 5000 is suppressed. -/
theorem trigAlert_startup (lvl : Nat) (msg : List Char) (u : State)
    (h0 : u.lastAlertTime = 0) (ht : now u < ALERT_CD) : trigAlert lvl msg u = tick u := by
  apply trigAlert_suppressed
  rw [h0, sub32_zero _ (now_lt u)]
  exact ht

theorem dormant_tick (s : State) (h : Dormant s) : Dormant (tick s) := h

theorem dormant_emit (evs : List Event) (s : State) (h : Dormant s)
    (hq : ∀ e ∈ evs, isAlertOutput e = false) : Dormant (emit evs s) := by
  obtain ⟨h1, h2, h3, h4⟩ := h
  refine ⟨h1, h2, h3, ?_⟩
  intro e he
  rw [emit_out, List.mem_append] at he
  rcases he with he | he
  · exact h4 e he
  · exact hq e he

/-- A check of the pass made in a dormant state, while every clock reading
below `R` is less than 5000, changes nothing but the count of clock reads. -/
theorem check_dormant (chk : State → State) (cond : State → Prop)
    [DecidablePred cond] (lvl : State → Nat) (msg : State → List Char)
    (hchk : ∀ u, chk u = if cond u then trigAlert (lvl u) (msg u) u else u)
    (u : State) (c : Nat → Nat) (R : Nat) (hd : Dormant u) (hclk : u.clock = c)
    (H : ∀ k, k < R → c k % U32 < ALERT_CD) (hR : (chk u).reads ≤ R) :
    Dormant (chk u) ∧ (chk u).clock = c := by
  rw [hchk u] at hR ⊢
  split
  · rename_i hcond
    rw [if_pos hcond] at hR
    have hlt := trigAlert_reads_lt (lvl u) (msg u) u
    have ht : now u < ALERT_CD := by
      unfold now
      rw [hclk]
      exact H u.reads (by omega)
    rw [trigAlert_startup (lvl u) (msg u) u hd.1 ht]
    exact ⟨dormant_tick u hd, hclk⟩
  · exact ⟨hd, hclk⟩

theorem rmAlerts_dormant (s : State) (h : Dormant s) : Dormant (rmAlerts s) := by
  obtain ⟨h1, h2, h3, h4⟩ := h
  refine ⟨h1, ?_, h3, h4⟩
  show ((List.range (tick s).alertCnt).foldl (rmStep (now s)) (0, (tick s).alerts)).1 = 0
  rw [tick_alertCnt, h2]
  rfl

theorem chkAlerts_dormant (s : State) (c : Nat → Nat) (R : Nat) (hd : Dormant s)
    (hclk : s.clock = c) (H : ∀ k, k < R → c k % U32 < ALERT_CD)
    (hR : (chkAlerts s).reads ≤ R) :
    Dormant (chkAlerts s) ∧ (chkAlerts s).clock = c := by
  have r3 : (chkBat (chkSpo2 (chkHr s))).reads ≤ R := by
    have : (chkAlerts s).reads = (chkBat (chkSpo2 (chkHr s))).reads + 1 := by
      unfold chkAlerts; simp only [rmAlerts_frame]
    omega
  have r2 : (chkSpo2 (chkHr s)).reads ≤ R := (chkBat_reads_le _).trans r3
  have r1 : (chkHr s).reads ≤ R := (chkSpo2_reads_le _).trans r2
  obtain ⟨d1, c1⟩ := check_dormant chkHr
    (fun u => u.vitals.finger = true ∧ 0 < u.vitals.hr ∧ (u.vitals.hr < 60 ∨ 100 < u.vitals.hr))
    (fun u => if u.vitals.hr < 50 ∨ 120 < u.vitals.hr then ALERT_CRIT else ALERT_WARN)
    (fun u => snprintf MAX_STR (['H', 'R', ':'] ++ fmtD u.vitals.hr))
    chkHr_eq s c R hd hclk H r1
  obtain ⟨d2, c2⟩ := check_dormant chkSpo2
    (fun u => u.vitals.finger = true ∧ 0 < u.vitals.spo2 ∧ u.vitals.spo2 < 95)
    (fun u => if u.vitals.spo2 < 90 then ALERT_CRIT else ALERT_WARN)
    (fun u => snprintf MAX_STR (['S', 'p', 'O', '2', ':'] ++ fmtD u.vitals.spo2))
    chkSpo2_eq _ c R d1 c1 H r2
  obtain ⟨d3, c3⟩ := check_dormant chkBat (fun u => u.vitals.bat < 20)
    (fun u => if u.vitals.bat < 10 then ALERT_CRIT else ALERT_WARN)
    (fun u => snprintf MAX_STR (['B', 'a', 't', ':'] ++ fmtD u.vitals.bat))
    chkBat_eq _ c R d2 c2 H r3
  exact ⟨rmAlerts_dormant _ d3, c3⟩

theorem chkMem_dormant (mem : Int) (s : State) (h : Dormant s) : Dormant (chkMem mem s) := by
  obtain ⟨h1, h2, h3, h4⟩ := h
  refine ⟨by simpa using h1, by simpa using h2, ?_, by simpa using h4⟩
  have := chkMem_alertLogCnt_le s mem
  omega

/-- The sensor update makes no buzzer or banner output and leaves the alert
state alone. -/
theorem updSensors_dormant (est : Estimator) (raw : Nat) (sample : Option (Nat × Nat))
    (s : State) (h : Dormant s) : Dormant (updSensors est raw sample s) := by
  obtain ⟨h1, h2, h3, h4⟩ := h
  refine ⟨by simpa using h1, by simpa using h2, by simpa using h3, ?_⟩
  cases sample with
  | none => exact h4
  | some p =>
    obtain ⟨red, ir⟩ := p
    rw [updSensors_sample]
    intro e he
    rw [emit_out, List.mem_append] at he
    rcases he with he | he
    · split at he
      · cases hf : (rewind (recordSample red ir (readBattery raw s))).finger with
        | false =>
          rw [estimatePass_no_finger est _ hf] at he
          exact h4 e he
        | true =>
          rw [(estimatePass_finger est _ hf).2.2, List.mem_append] at he
          rcases he with he | he
          · exact h4 e he
          · rw [List.mem_singleton] at he
            rw [he]; rfl
      · exact h4 e he
    · rw [List.mem_singleton] at he
      rw [he]; rfl

theorem updVitalsEvents_quiet (v : VitalSigns) :
    ∀ e ∈ updVitalsEvents v, isAlertOutput e = false := by
  intro e he
  unfold updVitalsEvents at he
  simp only [List.mem_cons, List.mem_singleton, List.not_mem_nil, or_false] at he
  rcases he with h | h | h | h | h | h | h | h | h | h | h | h | h | h <;> rw [h] <;> rfl

/-- The display update makes no buzzer or banner output and leaves the alert
state alone. -/
theorem updDisp_dormant (s : State) (h : Dormant s) : Dormant (updDisp s) := by
  obtain ⟨h1, h2, h3, h4⟩ := h
  refine ⟨by simpa using h1, by simpa using h2, by simpa using h3, ?_⟩
  unfold updDisp
  split
  · intro e he
    simp only [updVitals, emit_out, List.mem_append] at he
    rcases he with (he | he) | he
    · exact h4 e he
    · exact updVitalsEvents_quiet _ e he
    · simp only [List.mem_cons, List.mem_singleton, List.not_mem_nil, or_false] at he
      rcases he with he | he | he | he <;> rw [he] <;> rfl
  · exact h4

theorem handleTouch_dormant (touch : Option (Int × Int)) (s : State) (h : Dormant s) :
    Dormant (handleTouch touch s) := by
  cases touch with
  | none => exact h
  | some p =>
    exact dormant_emit _ s h (by intro e he; rw [List.mem_singleton] at he; rw [he]; rfl)

theorem sensorStep_clock_reads (est : Estimator) (inp : LoopIn) (t : Nat) (s : State) :
    (sensorStep est inp t s).clock = s.clock ∧ s.reads ≤ (sensorStep est inp t s).reads := by
  unfold sensorStep
  split <;> simp

theorem dispStep_clock_reads (t : Nat) (s : State) :
    (dispStep t s).clock = s.clock ∧ (dispStep t s).reads = s.reads := by
  unfold dispStep
  split <;> simp

theorem alertStep_clock_reads (t : Nat) (s : State) :
    (alertStep t s).clock = s.clock ∧ s.reads ≤ (alertStep t s).reads := by
  unfold alertStep
  split
  · refine ⟨by simp, ?_⟩
    exact le_of_lt (chkAlerts_reads_lt { s with lastAlert := t })
  · exact ⟨rfl, Nat.le_refl _⟩

theorem loop_eq (est : Estimator) (inp : LoopIn) (s : State) :
    loop est inp s =
      emit [Event.delay 10] (chkMem inp.mem (alertStep (now s) (dispStep (now s)
        (sensorStep est inp (now s) (handleTouch inp.touch (tick s)))))) := rfl

theorem loop_reads_eq (est : Estimator) (inp : LoopIn) (s : State) :
    (loop est inp s).reads =
      (chkMem inp.mem (alertStep (now s) (dispStep (now s)
        (sensorStep est inp (now s) (handleTouch inp.touch (tick s)))))).reads := by
  rw [loop_eq, emit_reads]

theorem loop_reads_lt (est : Estimator) (inp : LoopIn) (s : State) :
    s.reads < (loop est inp s).reads := by
  rw [loop_reads_eq]
  have h1 := chkMem_reads_lt inp.mem (alertStep (now s) (dispStep (now s)
    (sensorStep est inp (now s) (handleTouch inp.touch (tick s)))))
  have h2 := (alertStep_clock_reads (now s) (dispStep (now s)
    (sensorStep est inp (now s) (handleTouch inp.touch (tick s))))).2
  have h3 := (dispStep_clock_reads (now s)
    (sensorStep est inp (now s) (handleTouch inp.touch (tick s)))).2
  have h4 := (sensorStep_clock_reads est inp (now s) (handleTouch inp.touch (tick s))).2
  simp only [handleTouch_frame, tick_reads] at h4
  omega

/-- One loop iteration made in a dormant state, while every clock reading
below `R` is less than 5000, leaves the state dormant. -/
theorem loop_dormant (est : Estimator) (inp : LoopIn) (s : State) (c : Nat → Nat) (R : Nat)
    (hd : Dormant s) (hclk : s.clock = c) (H : ∀ k, k < R → c k % U32 < ALERT_CD)
    (hR : (loop est inp s).reads ≤ R) :
    Dormant (loop est inp s) ∧ (loop est inp s).clock = c := by
  have d0 : Dormant (handleTouch inp.touch (tick s)) :=
    handleTouch_dormant _ _ (dormant_tick s hd)
  have c0 : (handleTouch inp.touch (tick s)).clock = c := by simpa using hclk
  have d1 : Dormant (sensorStep est inp (now s) (handleTouch inp.touch (tick s))) := by
    unfold sensorStep
    split
    · exact updSensors_dormant est _ _ _ d0
    · exact d0
  have c1 : (sensorStep est inp (now s) (handleTouch inp.touch (tick s))).clock = c :=
    (sensorStep_clock_reads est inp (now s) _).1.trans c0
  have d2 : Dormant (dispStep (now s)
      (sensorStep est inp (now s) (handleTouch inp.touch (tick s)))) := by
    unfold dispStep
    split
    · exact updDisp_dormant _ d1
    · exact d1
  have c2 : (dispStep (now s)
      (sensorStep est inp (now s) (handleTouch inp.touch (tick s)))).clock = c :=
    (dispStep_clock_reads (now s) _).1.trans c1
  have r3 : (alertStep (now s) (dispStep (now s)
      (sensorStep est inp (now s) (handleTouch inp.touch (tick s))))).reads ≤ R := by
    rw [loop_reads_eq] at hR
    exact (le_of_lt (chkMem_reads_lt inp.mem _)).trans hR
  have d3 : Dormant (alertStep (now s) (dispStep (now s)
      (sensorStep est inp (now s) (handleTouch inp.touch (tick s))))) ∧
      (alertStep (now s) (dispStep (now s)
      (sensorStep est inp (now s) (handleTouch inp.touch (tick s))))).clock = c := by
    unfold alertStep at r3 ⊢
    split
    · rename_i hfire
      rw [if_pos hfire] at r3
      exact chkAlerts_dormant _ c R d2 c2 H r3
    · exact ⟨d2, c2⟩
  rw [loop_eq]
  constructor
  · exact dormant_emit _ _ (chkMem_dormant inp.mem _ d3.1)
      (by intro e he; rw [List.mem_singleton] at he; rw [he]; rfl)
  · rw [emit_clock, (chkMem_frame inp.mem _).2.2.2.2.2.1]
    exact d3.2

theorem runLoop_cons (est : Estimator) (x : LoopIn) (xs : List LoopIn) (s : State) :
    runLoop est (x :: xs) s = runLoop est xs (loop est x s) := rfl

theorem runLoop_reads_le (est : Estimator) (inputs : List LoopIn) :
    ∀ s : State, s.reads ≤ (runLoop est inputs s).reads := by
  induction inputs with
  | nil => intro s; exact Nat.le_refl _
  | cons x xs ih =>
    intro s
    rw [runLoop_cons]
    exact (le_of_lt (loop_reads_lt est x s)).trans (ih _)

theorem runLoop_dormant (est : Estimator) (inputs : List LoopIn) (c : Nat → Nat) (R : Nat)
    (H : ∀ k, k < R → c k % U32 < ALERT_CD) :
    ∀ s : State, Dormant s → s.clock = c → (runLoop est inputs s).reads ≤ R →
      Dormant (runLoop est inputs s) := by
  induction inputs with
  | nil => intro s hd _ _; exact hd
  | cons x xs ih =>
    intro s hd hclk hR
    rw [runLoop_cons] at hR ⊢
    have hR1 : (loop est x s).reads ≤ R := (runLoop_reads_le est xs _).trans hR
    obtain ⟨d, c1⟩ := loop_dormant est x s c R hd hclk H hR1
    exact ih _ d c1 hR

/-- C20.  The initial state is dormant (cooldown timer 0, no active alert,
empty log, no output).  With the cooldown timer at 0, every `trigAlert` call
made while the clock reads less than 5000 is suppressed.  Hence, for every
sequence of loop iterations from a dormant state (whatever the vital signs,
samples and estimator), if every clock reading taken during the run is less
than 5000 then the active alerts and the alert log are still empty, the
cooldown timer is still 0 and no buzzer or banner output has occurred. -/
theorem startup_suppression (est : Estimator) (inputs : List LoopIn) (s : State)
    (hd : Dormant s)
    (H : ∀ k, k < (runLoop est inputs s).reads → s.clock k % U32 < ALERT_CD) :
    (∀ clock, Dormant (initState clock)) ∧
    (∀ (lvl : Nat) (msg : List Char) (u : State), u.lastAlertTime = 0 → now u < ALERT_CD →
      trigAlert lvl msg u = tick u) ∧
    (runLoop est inputs s).active = [] ∧
    (runLoop est inputs s).log = [] ∧
    (runLoop est inputs s).alertCnt = 0 ∧
    (runLoop est inputs s).alertLogCnt = 0 ∧
    (runLoop est inputs s).lastAlertTime = 0 ∧
    (∀ e ∈ (runLoop est inputs s).out, isAlertOutput e = false) := by
  obtain ⟨h1, h2, h3, h4⟩ :=
    runLoop_dormant est inputs s.clock _ H s hd rfl (Nat.le_refl _)
  refine ⟨?_, trigAlert_startup, ?_, ?_, h2, h3, h1, h4⟩
  · intro clock
    exact ⟨rfl, rfl, rfl, by intro e he; cases he⟩
  · unfold State.active
    rw [h2]
    rfl
  · unfold State.log
    rw [h3]
    rfl

/-- C20 witness: three loop iterations from the initial state with all three
checks violated and a clock stuck at 4000 ms. -/
theorem startup_suppression_witness :
    (runLoop estInvalid (List.replicate 3 idleIn)
      { initState (constClock 4000) with vitals := ⟨40, 80, 5, true, 0⟩ }).log = [] ∧
    (runLoop estInvalid (List.replicate 3 idleIn)
      { initState (constClock 4000) with vitals := ⟨40, 80, 5, true, 0⟩ }).alertCnt = 0 :=
  have h := startup_suppression estInvalid (List.replicate 3 idleIn)
    { initState (constClock 4000) with vitals := ⟨40, 80, 5, true, 0⟩ }
    ⟨rfl, rfl, rfl, by intro e he; cases he⟩
    (fun k _ => by show 4000 % U32 < ALERT_CD; decide)
  ⟨h.2.2.2.1, h.2.2.2.2.1⟩

/-! ## The running program keeps its invariant -/

theorem estimatePass_hr_lt (est : Estimator) (s : State) (h : s.vitals.hr < 200) :
    (estimatePass est s).vitals.hr < 200 := by
  cases hf : s.finger with
  | false =>
    rw [estimatePass_no_finger est s hf]
    exact Nat.zero_lt_succ _
  | true =>
    rw [(estimatePass_finger est s hf).1]
    split
    · rename_i hv
      exact intToU8_lt _ 200 hv.2.1 hv.2.2 (by decide)
    · exact h

theorem updSensors_hr_lt (est : Estimator) (raw : Nat) (sample : Option (Nat × Nat))
    (s : State) (h : s.vitals.hr < 200) :
    (updSensors est raw sample s).vitals.hr < 200 := by
  cases sample with
  | none => exact h
  | some p =>
    obtain ⟨red, ir⟩ := p
    rw [updSensors_sample]
    split
    · exact estimatePass_hr_lt est (rewind (recordSample red ir (readBattery raw s))) h
    · exact h

theorem pushLog_alertLog_length (lvl : Nat) (msg : List Char) (s : State)
    (h : s.alertLog.length = MAX_LOG) : (pushLog lvl msg s).alertLog.length = MAX_LOG := by
  unfold pushLog
  split
  · show (s.alertLog.set _ _).length = MAX_LOG
    rw [List.length_set]
    exact h
  · show ((memmove s.alertLog 0 1 (MAX_LOG - 1)).set _ _).length = MAX_LOG
    rw [List.length_set]
    unfold memmove
    simp only [MAX_LOG] at h ⊢
    simp [h]

theorem trigAlert_alertLog_length (lvl : Nat) (msg : List Char) (s : State)
    (h : s.alertLog.length = MAX_LOG) : (trigAlert lvl msg s).alertLog.length = MAX_LOG := by
  unfold trigAlert
  split
  · exact h
  · simp only [showAlert_alertLog, playAlert_alertLog, stampAlert_alertLog]
    exact pushLog_alertLog_length lvl msg _ (by simpa using h)

theorem trigAlert_running (lvl : Nat) (msg : List Char) (s : State) (h : Running s) :
    Running (trigAlert lvl msg s) := by
  obtain ⟨h1, h2, h3⟩ := h
  refine ⟨?_, trigAlert_alertLog_length lvl msg s h2, trigAlert_alertLogCnt_le s lvl msg h3⟩
  rw [(trigAlert_frame lvl msg s).1]
  exact h1

theorem chkAlerts_running (s : State) (h : Running s) : Running (chkAlerts s) := by
  have r1 : Running (chkHr s) := by
    rw [chkHr_eq]
    split
    · exact trigAlert_running _ _ s h
    · exact h
  have r2 : Running (chkSpo2 (chkHr s)) := by
    rw [chkSpo2_eq]
    split
    · exact trigAlert_running _ _ _ r1
    · exact r1
  have r3 : Running (chkBat (chkSpo2 (chkHr s))) := by
    rw [chkBat_eq]
    split
    · exact trigAlert_running _ _ _ r2
    · exact r2
  exact r3

theorem chkMem_running (mem : Int) (s : State) (h : Running s) : Running (chkMem mem s) := by
  obtain ⟨h1, h2, h3⟩ := h
  refine ⟨?_, ?_, (chkMem_alertLogCnt_le s mem).trans h3⟩
  · rw [(chkMem_frame mem s).1]
    exact h1
  · unfold chkMem
    simp only []
    split
    · split
      · split
        · rename_i hgt
          have hgt2 : 1 < s.alertLogCnt := hgt
          show (memmove s.alertLog 0 1 (s.alertLogCnt - 1)).length = MAX_LOG
          unfold memmove
          simp only [MAX_LOG] at h2 h3 ⊢
          simp [h2]
          omega
        · exact h2
      · exact h2
    · exact h2

theorem preAlert_running (est : Estimator) (inp : LoopIn) (s : State)
    (h : Running s) :
    Running (dispStep (now s)
      (sensorStep est inp (now s) (handleTouch inp.touch (tick s)))) := by
  have r0 : Running (handleTouch inp.touch (tick s)) := by
    obtain ⟨h1, h2, h3⟩ := h
    exact ⟨by simpa using h1, by simpa using h2, by simpa using h3⟩
  have r1 : Running (sensorStep est inp (now s) (handleTouch inp.touch (tick s))) := by
    unfold sensorStep
    split
    · obtain ⟨h1, h2, h3⟩ := r0
      exact ⟨updSensors_hr_lt est _ _ _ h1, by simpa using h2, by simpa using h3⟩
    · exact r0
  have r2 : Running (dispStep (now s)
      (sensorStep est inp (now s) (handleTouch inp.touch (tick s)))) := by
    unfold dispStep
    split
    · obtain ⟨h1, h2, h3⟩ := r1
      exact ⟨by simpa using h1, by simpa using h2, by simpa using h3⟩
    · exact r1
  exact r2

theorem alertCallState_running (est : Estimator) (inp : LoopIn) (s : State)
    (h : Running s) : Running (alertCallState est inp s) := by
  obtain ⟨h1, h2, h3⟩ := preAlert_running est inp s h
  unfold alertCallState
  exact ⟨h1, h2, h3⟩

theorem alertStep_eq (est : Estimator) (inp : LoopIn) (s : State) :
    alertStep (now s) (dispStep (now s)
        (sensorStep est inp (now s) (handleTouch inp.touch (tick s)))) =
      if sub32 (now s) (dispStep (now s)
          (sensorStep est inp (now s) (handleTouch inp.touch (tick s)))).lastAlert ≥ 1000 then
        chkAlerts (alertCallState est inp s)
      else dispStep (now s) (sensorStep est inp (now s) (handleTouch inp.touch (tick s))) :=
  rfl

theorem loop_running (est : Estimator) (inp : LoopIn) (s : State) (h : Running s) :
    Running (loop est inp s) := by
  have r2 := alertCallState_running est inp s h
  have r2p := preAlert_running est inp s h
  have r3 : Running (alertStep (now s) (dispStep (now s)
      (sensorStep est inp (now s) (handleTouch inp.touch (tick s))))) := by
    rw [alertStep_eq]
    split
    · exact chkAlerts_running (alertCallState est inp s) r2
    · exact r2p
  rw [loop_eq]
  obtain ⟨k1, k2, k3⟩ := chkMem_running inp.mem (alertStep (now s) (dispStep (now s)
      (sensorStep est inp (now s) (handleTouch inp.touch (tick s))))) r3
  exact ⟨by rw [emit_vitals]; exact k1, by rw [emit_alertLog]; exact k2,
    by rw [emit_alertLogCnt]; exact k3⟩

theorem runLoop_running (est : Estimator) (inputs : List LoopIn) :
    ∀ s : State, Running s → Running (runLoop est inputs s) := by
  induction inputs with
  | nil => intro s h; exact h
  | cons x xs ih =>
    intro s h
    rw [runLoop_cons]
    exact ih _ (loop_running est x s h)

/-! ## C1: the heart-rate check -/

/-- C1.  Every state on which the program calls `chkAlerts` is a running
state: the initial state is one, every loop iteration keeps the invariant, and
so does the state handed to `chkAlerts` on line 143.  On every running state
(its `hr` lies in `0..200`) with the cooldown elapsed, the heart-rate block of
`chkAlerts` raises the alert `HR:<hr>` if and only if the finger flag is set
and `hr` lies in `(0,60)` or `(100,200)`; the level of the raised alert is
Critical if and only if `hr < 50` or `hr > 120`, and Warning otherwise. -/
theorem chkHr_alert_iff (s : State) (hrun : Running s) (hc : cooldownElapsed s) :
    s.vitals.hr ≤ 200 ∧
    chkAlerts s = rmAlerts (chkBat (chkSpo2 (chkHr s))) ∧
    ((∃ lvl, raised s (chkHr s) lvl (['H', 'R', ':'] ++ fmtD s.vitals.hr)) ↔
      (s.vitals.finger = true ∧
        ((0 < s.vitals.hr ∧ s.vitals.hr < 60) ∨
         (100 < s.vitals.hr ∧ s.vitals.hr < 200)))) ∧
    (∀ lvl, raised s (chkHr s) lvl (['H', 'R', ':'] ++ fmtD s.vitals.hr) →
      (lvl = ALERT_CRIT ↔ (s.vitals.hr < 50 ∨ 120 < s.vitals.hr)) ∧
      (lvl = ALERT_WARN ↔ ¬ (s.vitals.hr < 50 ∨ 120 < s.vitals.hr))) ∧
    (∀ clock, Running (initState clock)) ∧
    (∀ est inp u, Running u →
      Running (alertCallState est inp u) ∧ Running (loop est inp u)) ∧
    (∀ est inputs inp clock,
      Running (alertCallState est inp (runLoop est inputs (initState clock)))) := by
  have hinit : ∀ clock, Running (initState clock) := by
    intro clock
    refine ⟨?_, ?_, Nat.zero_le _⟩
    · show (0 : Nat) < 200
      decide
    · show (List.replicate MAX_LOG (default : Alert)).length = MAX_LOG
      exact List.length_replicate _ _
  obtain ⟨h1, h2, h3⟩ := hrun
  obtain ⟨g1, g2, g3⟩ := chkHr_guard_iff s (le_of_lt h1) h2 h3 hc
  refine ⟨le_of_lt h1, g1, ?_, g3, hinit,
    fun est inp u hu => ⟨alertCallState_running est inp u hu, loop_running est inp u hu⟩,
    fun est inputs inp clock =>
      alertCallState_running est inp _ (runLoop_running est inputs _ (hinit clock))⟩
  rw [g2]
  constructor
  · rintro ⟨hf, hpos, hlo | hhi⟩
    · exact ⟨hf, Or.inl ⟨hpos, hlo⟩⟩
    · exact ⟨hf, Or.inr ⟨hhi, h1⟩⟩
  · rintro ⟨hf, ⟨hpos, hlo⟩ | ⟨hhi, -⟩⟩
    · exact ⟨hf, hpos, Or.inl hlo⟩
    · exact ⟨hf, by omega, Or.inr hhi⟩

/-- C1 witness: heart rate 45 with a finger present, clock at 6000 ms. -/
theorem chkHr_alert_iff_witness :
    raised { initState (constClock 6000) with vitals := ⟨45, 98, 50, true, 0⟩ }
      (chkHr { initState (constClock 6000) with vitals := ⟨45, 98, 50, true, 0⟩ })
      ALERT_CRIT ['H', 'R', ':', '4', '5'] := by
  have h := chkHr_alert_iff
    { initState (constClock 6000) with vitals := ⟨45, 98, 50, true, 0⟩ }
    (by decide) (by decide)
  obtain ⟨lvl, hl⟩ := h.2.2.1.mpr (by decide)
  have hc := ((h.2.2.2.1 lvl hl).1).mpr (by decide)
  subst hc
  exact hl

end Kardiac
